import Mathlib

/-!
Verification of the DirectoryService client library (DirServices.cpp): a shallow
embedding of the session/reference multiplexing layer — the global message-table
state, the slot acquisition and teardown logic of the open/close operations, the
positional marshal-error convention, the continuation-token convention of the
enumeration operations, and the lost-TCP-connection cleanup — together with
theorems settling the frozen claims about this code.

External collaborators (the CMessaging transport object, the CDSRefMap handle
map, the field codec and the daemon itself) are not part of this repository's
sources; their observable outcomes enter the model as explicit environment
records (one status field per call site), exactly where the source consults
them.  All control flow, state mutation and error selection is translated from
DirServices.cpp.
-/

deriving instance DecidableEq for Except

namespace DirServices

/-! ### Status codes

The numeric values of `tDirStatus` live in `DirServicesTypes.h`, which is not
part of this repository.  The model uses distinct integer values; the code under
verification depends only on their distinctness, on `eDSNoErr = 0`, and on the
positional offsets (`eParameterSendError - i`) computed at the throw sites. -/

def eDSNoErr : Int := 0
def eDSCannotAccessSession : Int := -1010
def eDSNullParameter : Int := -1020
def eDSLocalDSDaemonInUse : Int := -1030
def eDSNormalDSDaemonInUse : Int := -1040
def eDSMaxSessionsOpen : Int := -1050
def eMemoryAllocError : Int := -1060
def eMemoryError : Int := -1070
def eParameterSendError : Int := -1080
def eParameterReceiveError : Int := -1120
def eDataReceiveErr_NoDirRef : Int := -1160
def eDataReceiveErr_NoDataBuff : Int := -1161
def eDataReceiveErr_NoRecEntryCount : Int := -1162
def eDataReceiveErr_NoContinueData : Int := -1163
def eDataReceiveErr_NoNodeCount : Int := -1164
def eDataReceiveErr_NoRecMatchCount : Int := -1165
def eDSInvalidReference : Int := -1200
def eDSRefTableIndexOutOfBoundsError : Int := -1210
def eDSRefTableEntryNilError : Int := -1220
def eDSTCPSendError : Int := -1230
def eDSTCPReceiveError : Int := -1240
def eDSBufferTooSmall : Int := -1250
def eDSInvalidFilePath : Int := -1260

/-- Mirrors `#define kDSFWMaxRemoteConnections 8` in DirServices.cpp. -/
def kDSFWMaxRemoteConnections : Nat := 8

/-- Mirrors `gMaxEndpoints = kDSFWMaxRemoteConnections + 1`: the message table
`gMessageTable[kDSFWMaxRemoteConnections+1]` has 9 entries, indices 0..8. -/
def gMaxEndpoints : Nat := kDSFWMaxRemoteConnections + 1

/-! ### The endpoint object and the global state -/

/-- Modelled from the spec: the observable state of one `CMessaging` transport
object (CMessaging.cpp is not part of this repository's sources).  Per spec
§4.2, opening a channel makes it usable and `close()` closes it; the
constructor argument `isMach` distinguishes the shared mach channel (slot 0)
from a dedicated remote TCP endpoint, `localDaemon` records which daemon
variant the shared channel is conversing with (`ChangeLocalDaemonUse`), and
`serverVersion` is the negotiated proxy protocol version (`SetServerVersion`). -/
structure CMessaging where
  isMach : Bool
  portOpen : Bool
  localDaemon : Bool
  serverVersion : Nat
deriving DecidableEq, Repr

/-- The message table `gMessageTable[9]`.  The C array has exactly
`gMaxEndpoints = 9` cells (indices 0..8); an access at any larger index is out
of bounds in the source.  The model uses a total map and is only evaluated at
indices for which the source performs an in-bounds access, except where a claim
is precisely about the bounds check itself. -/
abbrev MsgTable := Nat → Option CMessaging

/-- Write one cell of the message table. -/
def setSlot (t : MsgTable) (i : Nat) (v : Option CMessaging) : MsgTable :=
  fun j => if j = i then v else t j

/-- The process-wide globals of DirServices.cpp. -/
structure DSGlobals where
  gMessageTable : MsgTable
  gDSConnections : Nat
  gNormalDaemonInUse : Bool
  gLocalDaemonInUse : Bool
  gProcessForked : Bool

/-- The state at process start: an all-nil table, no connections, neither
daemon flag set, and `gProcessForked = true` (the source initializes it to
true so the first session lazily resets). -/
def initialGlobals : DSGlobals :=
  { gMessageTable := fun _ => none
    gDSConnections := 0
    gNormalDaemonInUse := false
    gLocalDaemonInUse := false
    gProcessForked := true }

/-- Mirrors `__ResetAllSessions`: clears the reference maps (not modelled),
closes and deletes every remote slot 1..8 (nil afterwards), closes slot 0's
comm port but keeps its entry, and resets both in-use flags and the
connection count. -/
def resetAllSessions (st : DSGlobals) : DSGlobals :=
  { st with
    gMessageTable := fun j =>
      if j = 0 then (st.gMessageTable 0).map (fun m => { m with portOpen := false })
      else if j < gMaxEndpoints then none
      else st.gMessageTable j
    gLocalDaemonInUse := false
    gNormalDaemonInUse := false
    gDSConnections := 0 }

/-! ### The exception macros

`LogThenThrowIfDSErrorMacro` and friends (DSLogException.h) throw an `SInt32`
that the enclosing catch blocks turn into the call's result code. -/

/-- Mirrors `LogThenThrowIfDSErrorMacro( err )`: throws `err` iff it is an
error (non-zero). -/
def logThenThrowIfDSError (s : Int) : Except Int Unit :=
  if s ≠ eDSNoErr then .error s else .ok ()

/-- Mirrors `LogThenThrowThisIfDSErrorMacro( err, thisErr )`: throws `thisErr`
iff `err` is an error (non-zero). -/
def logThenThrowThisIfDSError (s thisErr : Int) : Except Int Unit :=
  if s ≠ eDSNoErr then .error thisErr else .ok ()

/-- Mirrors `LogThenThrowIfTrueMacro( cond, err )`. -/
def logThenThrowIfTrue (c : Bool) (e : Int) : Except Int Unit :=
  if c then .error e else .ok ()

/-- Mirrors `LogThenThrowIfNilMacro( ptr, err )`. -/
def logThenThrowIfNil {α : Type} (o : Option α) (e : Int) : Except Int Unit :=
  if o.isSome then .ok () else .error e

/-! ### CheckToCleanUpLostTCPConnection -/

/-- Mirrors `CheckToCleanUpLostTCPConnection ( tDirStatus *inStatus, UInt32
inMessageIndex, UInt32 lineNumber )`: on a non-success status, for a non-zero
(remote) message index, if the status is a TCP send or receive error, the
status is rewritten to `eDSCannotAccessSession` and — if the slot still holds
an endpoint — that endpoint is closed, deleted and the table entry set to nil.
Slot 0 is never touched.  Returns the updated globals and status. -/
def checkToCleanUpLostTCPConnection (st : DSGlobals) (inStatus : Int)
    (inMessageIndex : Nat) : DSGlobals × Int :=
  if inStatus ≠ eDSNoErr then
    if inMessageIndex ≠ 0 then
      if inStatus = eDSTCPReceiveError ∨ inStatus = eDSTCPSendError then
        -- `*inStatus = eDSCannotAccessSession` happens before the nil test
        let st2 :=
          match st.gMessageTable inMessageIndex with
          | some _ =>
            { st with gMessageTable := setSlot st.gMessageTable inMessageIndex none }
          | none => st
        (st2, eDSCannotAccessSession)
      else (st, inStatus)
    else (st, inStatus)
  else (st, inStatus)

/-! ### dsVerifyDirRefNum -/

/-- Environment of one `dsVerifyDirRefNum` call: the message-table index the
reference map resolves the reference to, and the outcome of each external call
on the RPC path. -/
structure VerifyEnv where
  getMsgIndex : Nat
  addDirRef : Int
  sendStatus : Int
  replyStatus : Int
  getResultStatus : Int
  resultCode : Int

/-- Result of a `dsVerifyDirRefNum` call: final globals, returned status, and
two observation flags — whether `gFWRefMap` was consulted and whether the
verify RPC (`SendInlineMessage(kVerifyDirRefNum)`) was reached. -/
structure VerifyResult where
  state : DSGlobals
  status : Int
  consultedRefMap : Bool
  didRPC : Bool

/-- Mirrors `dsVerifyDirRefNum`: the hard-wired reference `0x00F0F0F0` returns
`eDSNoErr` at once, a zero reference returns `eDSInvalidReference` at once
(both before the reference map or any message-table access); every other value
resolves the reference and runs the verify RPC, followed by
`CheckToCleanUpLostTCPConnection`. -/
def dsVerifyDirRefNum (st : DSGlobals) (inDirRef : Nat) (env : VerifyEnv) :
    VerifyResult :=
  if inDirRef = 0x00F0F0F0 then
    ⟨st, eDSNoErr, false, false⟩
  else if inDirRef = 0 then
    ⟨st, eDSInvalidReference, false, false⟩
  else
    let idx := env.getMsgIndex
    if idx > gMaxEndpoints then
      let r := checkToCleanUpLostTCPConnection st eDSRefTableIndexOutOfBoundsError idx
      ⟨r.1, r.2, true, false⟩
    else if (st.gMessageTable idx).isNone then
      let r := checkToCleanUpLostTCPConnection st eDSRefTableEntryNilError idx
      ⟨r.1, r.2, true, false⟩
    else if env.addDirRef ≠ eDSNoErr then
      let r := checkToCleanUpLostTCPConnection st eParameterSendError idx
      ⟨r.1, r.2, true, false⟩
    else if env.sendStatus ≠ eDSNoErr then
      let r := checkToCleanUpLostTCPConnection st env.sendStatus idx
      ⟨r.1, r.2, true, true⟩
    else if env.replyStatus ≠ eDSNoErr then
      let r := checkToCleanUpLostTCPConnection st env.replyStatus idx
      ⟨r.1, r.2, true, true⟩
    else
      let outResult := if env.getResultStatus = eDSNoErr then env.resultCode else eDSNoErr
      let r := checkToCleanUpLostTCPConnection st outResult idx
      ⟨r.1, r.2, true, true⟩

/-! ### dsOpenDirService -/

/-- Environment of one `dsOpenDirService` call: whether the caller passed a nil
`outDirRef`, and the outcome of each external call in source order
(`dsIsDirServiceRunning`, `CMessaging::OpenCommPort(false)`, the RPC send,
reply, result extraction and dir-ref extraction). -/
structure OpenServiceEnv where
  outDirRefNull : Bool
  daemonStatus : Int
  openCommPortStatus : Int
  sendStatus : Int
  replyStatus : Int
  getResultStatus : Int
  resultCode : Int
  getDirRefStatus : Int
  dirRefValue : Nat

/-- Result of an open operation: final globals, returned status, and the
directory reference written to `*outDirRef` (populated only on success). -/
structure OpResult where
  state : DSGlobals
  status : Int
  dirRef : Option Nat

/-- Mirrors `dsOpenDirService`.  Under the global lock: refuse with
`eDSLocalDSDaemonInUse` if the local-only daemon holds slot 0 (checked before
anything else mutates); return the probe error if the daemon is not running;
lazily reset all sessions after a fork; create slot 0 and open its comm port
if empty, else just flip the daemon-variant flag; then increment
`gDSConnections` and set `gNormalDaemonInUse` — note the source increments
before the open RPC runs, so a later RPC failure does not undo either.  Outside
the lock, the `kOpenDirService` RPC is driven on slot 0. -/
def dsOpenDirService (st : DSGlobals) (env : OpenServiceEnv) : OpResult :=
  if env.outDirRefNull then ⟨st, eDSNullParameter, none⟩
  else if st.gLocalDaemonInUse then ⟨st, eDSLocalDSDaemonInUse, none⟩
  else if env.daemonStatus ≠ eDSNoErr then ⟨st, env.daemonStatus, none⟩
  else
    let st1 := if st.gProcessForked then
        { resetAllSessions st with gProcessForked := false } else st
    let opened :=
      match st1.gMessageTable 0 with
      | none =>
        -- `gMessageTable[0] = new CMessaging(true, ...); OpenCommPort(false)`
        let m : CMessaging := { isMach := true, portOpen := env.openCommPortStatus = eDSNoErr,
                                localDaemon := false, serverVersion := 0 }
        ({ st1 with gMessageTable := setSlot st1.gMessageTable 0 (some m) },
         env.openCommPortStatus)
      | some m =>
        -- `gMessageTable[0]->ChangeLocalDaemonUse( false )`
        let t0 := setSlot st1.gMessageTable 0 (some { m with localDaemon := false })
        ({ st1 with gMessageTable := t0 }, eDSNoErr)
    let st3 := { opened.1 with gDSConnections := opened.1.gDSConnections + 1,
                               gNormalDaemonInUse := true }
    if opened.2 ≠ eDSNoErr then ⟨st3, opened.2, none⟩
    else if env.sendStatus ≠ eDSNoErr then ⟨st3, env.sendStatus, none⟩
    else if env.replyStatus ≠ eDSNoErr then ⟨st3, env.replyStatus, none⟩
    else
      let outResult := if env.getResultStatus = eDSNoErr then env.resultCode else eDSNoErr
      if outResult ≠ eDSNoErr then ⟨st3, outResult, none⟩
      else if env.getDirRefStatus ≠ eDSNoErr then ⟨st3, eDataReceiveErr_NoDirRef, none⟩
      else ⟨st3, eDSNoErr, some env.dirRefValue⟩

/-! ### dsOpenDirServiceLocal: path normalization -/

/-- Mirrors `PATH_MAX` (limits.h, 1024 on the target platform); the buffer is
`char newPath[PATH_MAX+1]`. -/
def PATH_MAX : Nat := 1024

/-- The well-known default local store path. -/
def kDefaultLocalPath : List Char := "/var/db/dslocal/nodes/Default/".toList

/-- Whether `hay` starts with `pat` (character-wise). -/
def listStartsWith : List Char → List Char → Bool
  | _, [] => true
  | [], _ :: _ => false
  | a :: as, b :: bs => a = b && listStartsWith as bs

/-- Mirrors `strstr(newPath, pat) != NULL && strcmp(dirPath, pat) == 0`: the
first occurrence of `pat` in `hay` exists and runs to the end of the string. -/
def strstrSuffixCheck : List Char → List Char → Bool
  | [], pat => pat.isEmpty
  | c :: t, pat =>
    if listStartsWith (c :: t) pat then (c :: t) == pat else strstrSuffixCheck t pat

/-- Mirrors the path-normalization prologue of `dsOpenDirServiceLocal` (a nil
or empty path, or the literal `"Default"`, becomes the well-known default
path; `strlcpy` truncates to `PATH_MAX` characters; a missing trailing slash
is appended; a path ending at its first occurrence of `"/dslocal/nodes/"`
gets `"Default/"` appended).  The over-length branch invokes
`LogThenThrowThisIfDSErrorMacro( siStatus, eDSInvalidFilePath )` while
`siStatus` still holds `eDSNoErr`, so that macro never throws: the source's
over-length rejection is a no-op, faithfully reproduced here. -/
def dsLocalNormalizePath (inFilePath : Option (List Char)) : Except Int (List Char) := do
  let newPath : List Char :=
    match inFilePath with
    | none => kDefaultLocalPath
    | some p =>
      if p.isEmpty || p == "Default".toList then kDefaultLocalPath
      else p.take PATH_MAX
  let siStatus := eDSNoErr
  if newPath.length ≥ PATH_MAX then
    logThenThrowThisIfDSError siStatus eDSInvalidFilePath
  let newPath2 := if newPath.getLast? ≠ some '/' then newPath ++ ['/'] else newPath
  let newPath3 := if strstrSuffixCheck newPath2 "/dslocal/nodes/".toList then
      newPath2 ++ "Default/".toList else newPath2
  return newPath3

/-! ### dsOpenDirServiceLocal -/

/-- Environment of one `dsOpenDirServiceLocal` call, in source order: nil
`outDirRef`; `lstat` success on the normalized path; the redirect probe
(`dsIsDirServiceRunning`, `lstat` of the daemon's own store, device+inode
identity of the two); the environment of the redirected `dsOpenDirService`
call; then `dsIsDirServiceLocalRunning`, `OpenCommPort(true)` and the RPC
call-site outcomes. -/
structure OpenLocalEnv where
  outDirRefNull : Bool
  lstatOk : Bool
  daemonRunning : Bool
  defaultStoreStatOk : Bool
  samePathAsDaemonStore : Bool
  redirectEnv : OpenServiceEnv
  localDaemonStatus : Int
  openCommPortStatus : Int
  addFilePath : Int
  deallocStatus : Int
  sendStatus : Int
  replyStatus : Int
  getResultStatus : Int
  resultCode : Int
  getDirRefStatus : Int
  dirRefValue : Nat

/-- Mirrors `dsOpenDirServiceLocal` from the point after the lazy fork reset:
validate the path with `lstat`, silently redirect to `dsOpenDirService` when a
running daemon manages the very same store, refuse with
`eDSNormalDSDaemonInUse` if the normal daemon holds slot 0, probe the
local-only daemon, open or re-flag slot 0, and increment `gDSConnections` and
set `gLocalDaemonInUse` (before the RPC, with no rollback on RPC failure);
then drive the `kOpenDirServiceLocal` RPC. -/
def dsOpenDirServiceLocalPostFork (st1 : DSGlobals) (env : OpenLocalEnv) : OpResult :=
  if !env.lstatOk then ⟨st1, eDSInvalidFilePath, none⟩
  else if env.daemonRunning && env.defaultStoreStatOk && env.samePathAsDaemonStore then
    -- `gLock->SignalLock(); return dsOpenDirService( outDirRef );`
    dsOpenDirService st1 env.redirectEnv
  else if st1.gNormalDaemonInUse then ⟨st1, eDSNormalDSDaemonInUse, none⟩
  else if env.localDaemonStatus ≠ eDSNoErr then ⟨st1, env.localDaemonStatus, none⟩
  else
    let opened :=
      match st1.gMessageTable 0 with
      | none =>
        let m : CMessaging := { isMach := true, portOpen := env.openCommPortStatus = eDSNoErr,
                                localDaemon := true, serverVersion := 0 }
        ({ st1 with gMessageTable := setSlot st1.gMessageTable 0 (some m) },
         env.openCommPortStatus)
      | some m =>
        -- `gMessageTable[0]->ChangeLocalDaemonUse( true )`
        let t0 := setSlot st1.gMessageTable 0 (some { m with localDaemon := true })
        ({ st1 with gMessageTable := t0 }, eDSNoErr)
    let st3 := { opened.1 with gDSConnections := opened.1.gDSConnections + 1,
                               gLocalDaemonInUse := true }
    if opened.2 ≠ eDSNoErr then ⟨st3, opened.2, none⟩
    else if env.addFilePath ≠ eDSNoErr then ⟨st3, eParameterSendError, none⟩
    else if env.deallocStatus ≠ eDSNoErr then ⟨st3, eMemoryError, none⟩
    else if env.sendStatus ≠ eDSNoErr then ⟨st3, env.sendStatus, none⟩
    else if env.replyStatus ≠ eDSNoErr then ⟨st3, env.replyStatus, none⟩
    else
      let outResult := if env.getResultStatus = eDSNoErr then env.resultCode else eDSNoErr
      if outResult ≠ eDSNoErr then ⟨st3, outResult, none⟩
      else if env.getDirRefStatus ≠ eDSNoErr then ⟨st3, eDataReceiveErr_NoDirRef, none⟩
      else ⟨st3, eDSNoErr, some env.dirRefValue⟩

/-- The whole of `dsOpenDirServiceLocal`: the nil check, the path
normalization, the lazy fork reset under the global lock, and the rest of the
operation above. -/
def dsOpenDirServiceLocal (st : DSGlobals) (inFilePath : Option (List Char))
    (env : OpenLocalEnv) : OpResult :=
  if env.outDirRefNull then ⟨st, eDSNullParameter, none⟩
  else
    match dsLocalNormalizePath inFilePath with
    | .error e => ⟨st, e, none⟩
    | .ok _newPath =>
      let st1 := if st.gProcessForked then
          { resetAllSessions st with gProcessForked := false } else st
      dsOpenDirServiceLocalPostFork st1 env

/-! ### dsOpenDirServiceProxy -/

/-- Environment of one `dsOpenDirServiceProxy` call, in source order:
`ConfigTCP`, `OpenTCPEndpoint`, the three `VerifyTDataBuff` argument checks,
then each append, the send, the reply, the result extraction, the negotiated
server version and the dir-ref extraction. -/
structure ProxyEnv where
  outDirRefNull : Bool
  ioContinueNull : Bool
  configStatus : Int
  openTCPStatus : Int
  verifyAuthMethod : Int
  verifyAuthStep : Int
  verifyAuthResp : Int
  addVers : Int
  deallocVers : Int
  addAuthMethod : Int
  addAuthStep : Int
  addAuthResp : Int
  addContext : Int
  sendStatus : Int
  replyStatus : Int
  getResultStatus : Int
  resultCode : Int
  serverVersion : Nat
  getDirRefStatus : Int
  dirRefValue : Nat

/-- Mirrors the slot scan `for (tableIndex = 1; tableIndex < gMaxEndpoints;
tableIndex++) if (gMessageTable[tableIndex] == nil) ...`: the first empty
remote slot in 1..8, or 0 when every remote slot is occupied. -/
def firstFreeSlot (t : MsgTable) : Nat :=
  if t 1 = none then 1
  else if t 2 = none then 2
  else if t 3 = none then 3
  else if t 4 = none then 4
  else if t 5 = none then 5
  else if t 6 = none then 6
  else if t 7 = none then 7
  else if t 8 = none then 8
  else 0

/-- Mirrors `dsOpenDirServiceProxy`.  Under the global lock: lazily reset
after a fork, scan for the first free remote slot (failing with
`eDSMaxSessionsOpen` when none), store a fresh `CMessaging(false, ...)` there,
configure and open its TCP endpoint — a `ConfigTCP` or `OpenTCPEndpoint`
failure is thrown without removing the stored object from the slot.  Then,
holding the endpoint lock, build and run the version-tagged open request; any
failure in that phase closes the TCP endpoint, deletes the messaging object
and nils the table entry before rethrowing. -/
def dsOpenDirServiceProxy (st : DSGlobals) (env : ProxyEnv) : OpResult :=
  if env.outDirRefNull then ⟨st, eDSNullParameter, none⟩
  else
    let st1 := if st.gProcessForked then
        { resetAllSessions st with gProcessForked := false } else st
    let messageIndex := firstFreeSlot st1.gMessageTable
    if messageIndex = 0 then ⟨st1, eDSMaxSessionsOpen, none⟩
    else
      let m0 : CMessaging := { isMach := false, portOpen := false,
                               localDaemon := false, serverVersion := 0 }
      if env.configStatus ≠ eDSNoErr then
        -- throw under gLock: the fresh CMessaging stays in the claimed slot
        ⟨{ st1 with gMessageTable := setSlot st1.gMessageTable messageIndex (some m0) },
         env.configStatus, none⟩
      else
        let m1 : CMessaging := { m0 with portOpen := env.openTCPStatus = eDSNoErr }
        let tOpen := setSlot st1.gMessageTable messageIndex (some m1)
        let stOpen := { st1 with gMessageTable := tOpen }
        if env.openTCPStatus ≠ eDSNoErr then
          -- detected after the gLock section; again no teardown of the slot
          ⟨stOpen, env.openTCPStatus, none⟩
        else
          -- RPC phase: the catch blocks here close, delete and nil the slot
          let tTorn := setSlot stOpen.gMessageTable messageIndex none
          let stTorn := { stOpen with gMessageTable := tTorn }
          if env.verifyAuthMethod ≠ eDSNoErr then ⟨stTorn, env.verifyAuthMethod, none⟩
          else if env.verifyAuthStep ≠ eDSNoErr then ⟨stTorn, env.verifyAuthStep, none⟩
          else if env.verifyAuthResp ≠ eDSNoErr then ⟨stTorn, env.verifyAuthResp, none⟩
          else if env.addVers ≠ eDSNoErr then ⟨stTorn, eParameterSendError, none⟩
          else if env.deallocVers ≠ eDSNoErr then ⟨stTorn, eMemoryError, none⟩
          else if env.addAuthMethod ≠ eDSNoErr then ⟨stTorn, eParameterSendError - 1, none⟩
          else if env.addAuthStep ≠ eDSNoErr then ⟨stTorn, eParameterSendError - 2, none⟩
          else if env.addAuthResp ≠ eDSNoErr then ⟨stTorn, eParameterSendError - 3, none⟩
          else if !env.ioContinueNull && env.addContext ≠ eDSNoErr then
            ⟨stTorn, eParameterReceiveError - 4, none⟩
          else if env.sendStatus ≠ eDSNoErr then ⟨stTorn, env.sendStatus, none⟩
          else if env.replyStatus ≠ eDSNoErr then ⟨stTorn, env.replyStatus, none⟩
          else
            let outResult := if env.getResultStatus = eDSNoErr then env.resultCode else eDSNoErr
            if outResult ≠ eDSNoErr then ⟨stTorn, outResult, none⟩
            else
              -- server version extraction is tolerated; `SetServerVersion`
              let m2 : CMessaging := { m1 with serverVersion := env.serverVersion }
              let tV := setSlot stOpen.gMessageTable messageIndex (some m2)
              let stV := { stOpen with gMessageTable := tV }
              if env.getDirRefStatus ≠ eDSNoErr then
                ⟨{ stV with gMessageTable := setSlot stV.gMessageTable messageIndex none },
                 eDataReceiveErr_NoDirRef, none⟩
              else ⟨stV, eDSNoErr, some env.dirRefValue⟩

/-! ### dsCloseDirService -/

/-- Environment of one `dsCloseDirService` call: the message-table index the
reference map resolves the reference to, and the outcome of each RPC call
site. -/
structure CloseEnv where
  getMsgIndex : Nat
  addDirRef : Int
  addConnCount : Int
  sendStatus : Int
  replyStatus : Int
  getResultStatus : Int
  resultCode : Int

/-- Mirrors the try-block of `dsCloseDirService`: the reference resolution (the
two distinct resolution errors) and the close RPC — note both append call sites
throw the unshifted `eParameterSendError`.  Returns the thrown error, or `none`
on success. -/
def dsCloseDirServiceRPCError (st : DSGlobals) (env : CloseEnv) : Option Int :=
  if env.getMsgIndex > gMaxEndpoints then some eDSRefTableIndexOutOfBoundsError
  else if (st.gMessageTable env.getMsgIndex).isNone then some eDSRefTableEntryNilError
  else if env.addDirRef ≠ eDSNoErr then some eParameterSendError
  else if env.addConnCount ≠ eDSNoErr then some eParameterSendError
  else if env.sendStatus ≠ eDSNoErr then some env.sendStatus
  else if env.replyStatus ≠ eDSNoErr then some env.replyStatus
  else
    let outResult := if env.getResultStatus = eDSNoErr then env.resultCode else eDSNoErr
    if outResult ≠ eDSNoErr then some outResult else none

/-- Mirrors the global-lock section of `dsCloseDirService`, reached only when
the RPC succeeded: decrement `gDSConnections` for slot 0 (guarded against
underflow); when the count is zero, close slot 0's comm port and clear both
in-use flags; and unconditionally close, delete and nil a remote slot. -/
def dsCloseDirServiceBookkeeping (st : DSGlobals) (messageIndex : Nat) : DSGlobals :=
  let st1 := if messageIndex = 0 && st.gDSConnections > 0 then
      { st with gDSConnections := st.gDSConnections - 1 } else st
  let tClosed := setSlot st1.gMessageTable 0
    ((st1.gMessageTable 0).map (fun m => { m with portOpen := false }))
  let st2 := if st1.gDSConnections = 0 then
      { st1 with gMessageTable := tClosed, gLocalDaemonInUse := false,
                 gNormalDaemonInUse := false }
    else st1
  if messageIndex ≠ 0 && (st2.gMessageTable messageIndex).isSome then
    { st2 with gMessageTable := setSlot st2.gMessageTable messageIndex none }
  else st2

/-- The whole of `dsCloseDirService`: resolution and RPC (a thrown error skips
the bookkeeping section entirely), then the global-lock bookkeeping, and on
every return path `CheckToCleanUpLostTCPConnection`. -/
def dsCloseDirService (st : DSGlobals) (inDirRef : Nat) (env : CloseEnv) :
    DSGlobals × Int :=
  if inDirRef = 0 then
    checkToCleanUpLostTCPConnection st eDSInvalidReference 0
  else
    match dsCloseDirServiceRPCError st env with
    | some e =>
      checkToCleanUpLostTCPConnection st e env.getMsgIndex
    | none =>
      checkToCleanUpLostTCPConnection
        (dsCloseDirServiceBookkeeping st env.getMsgIndex) eDSNoErr env.getMsgIndex

/-! ### Enumeration operations and the continuation token

`tContextData *ioContinueData` is modelled as `Option Nat`: `none` when the
caller passed a nil pointer, `some v` for a pointer whose referent currently
holds `v`.  Each operation returns the final referent value. -/

/-- Result of an enumeration operation: final globals, returned status, and the
final value of `*ioContinueData` (unchanged from the input when the caller
passed nil or the operation never wrote it). -/
structure EnumResult where
  state : DSGlobals
  status : Int
  continueData : Option Nat

/-- Environment of one `dsGetRecordList` call, in source order: reference-map
resolution, the four argument verifications, the seven/eight/nine appends
(the buffer-or-length append depends on the negotiated server version held in
the endpoint, which the model reads from the resolved slot), send, reply,
result, and the three reply extractions. -/
structure GetRecordListEnv where
  getMsgIndex : Nat
  verifyDataBuff : Int
  verifyRecNameList : Int
  verifyRecTypeList : Int
  verifyAttrTypeList : Int
  addNodeRef : Int
  addBuffOrLen : Int
  addRecNameList : Int
  addPattMatch : Int
  addRecTypeList : Int
  addAttrTypeList : Int
  addAttrInfoOnly : Int
  recCountGiven : Bool
  addRecEntryCount : Int
  addContext : Int
  sendStatus : Int
  replyStatus : Int
  getResultStatus : Int
  resultCode : Int
  getDataBuff : Int
  getRecEntryCount : Int
  getContext : Int
  contextValue : Nat

/-- Mirrors the try-block body of `dsGetRecordList`: resolve, marshal (each
failing append reported with its positional code; the optional
continuation-token append with `eParameterReceiveError - 8`), send, await,
read the result — tolerating `eDSBufferTooSmall` — and extract the buffer,
count and output token.  Returns the result code and the value of
`*ioContinueData` at that point. -/
def dsGetRecordListBody (st : DSGlobals) (inNodeRef : Nat) (ioContinueData : Option Nat)
    (env : GetRecordListEnv) : Int × Option Nat :=
  if inNodeRef = 0 then (eDSInvalidReference, ioContinueData)
    else if env.getMsgIndex > gMaxEndpoints then
      (eDSRefTableIndexOutOfBoundsError, ioContinueData)
    else if (st.gMessageTable env.getMsgIndex).isNone then
      (eDSRefTableEntryNilError, ioContinueData)
    else if env.verifyDataBuff ≠ eDSNoErr then (env.verifyDataBuff, ioContinueData)
    else if env.verifyRecNameList ≠ eDSNoErr then (env.verifyRecNameList, ioContinueData)
    else if env.verifyRecTypeList ≠ eDSNoErr then (env.verifyRecTypeList, ioContinueData)
    else if env.verifyAttrTypeList ≠ eDSNoErr then (env.verifyAttrTypeList, ioContinueData)
    else if env.addNodeRef ≠ eDSNoErr then (eParameterSendError, ioContinueData)
    else if env.addBuffOrLen ≠ eDSNoErr then (eParameterSendError - 1, ioContinueData)
    else if env.addRecNameList ≠ eDSNoErr then (eParameterSendError - 2, ioContinueData)
    else if env.addPattMatch ≠ eDSNoErr then (eParameterSendError - 3, ioContinueData)
    else if env.addRecTypeList ≠ eDSNoErr then (eParameterSendError - 4, ioContinueData)
    else if env.addAttrTypeList ≠ eDSNoErr then (eParameterSendError - 5, ioContinueData)
    else if env.addAttrInfoOnly ≠ eDSNoErr then (eParameterSendError - 6, ioContinueData)
    else if env.recCountGiven && env.addRecEntryCount ≠ eDSNoErr then
      (eParameterSendError - 7, ioContinueData)
    else if ioContinueData.isSome && env.addContext ≠ eDSNoErr then
      (eParameterReceiveError - 8, ioContinueData)
    else if env.sendStatus ≠ eDSNoErr then (env.sendStatus, ioContinueData)
    else if env.replyStatus ≠ eDSNoErr then (env.replyStatus, ioContinueData)
    else
      let outResult := if env.getResultStatus = eDSNoErr then env.resultCode else eDSNoErr
      if outResult ≠ eDSBufferTooSmall ∧ outResult ≠ eDSNoErr then (outResult, ioContinueData)
      else if env.getDataBuff ≠ eDSNoErr then (eDataReceiveErr_NoDataBuff, ioContinueData)
      else if env.recCountGiven && env.getRecEntryCount ≠ eDSNoErr then
        (eDataReceiveErr_NoRecEntryCount, ioContinueData)
      else if ioContinueData.isSome && env.getContext ≠ eDSNoErr then
        (eDataReceiveErr_NoContinueData, ioContinueData)
      else (outResult, if ioContinueData.isSome then some env.contextValue else none)

/-- The whole of `dsGetRecordList`: the body above, then the tail at the
bottom of the function —
`if (( outResult != eDSNoErr ) && ( outResult != eDSBufferTooSmall )) { if (
ioContinueData != nil ) *ioContinueData = 0; }` — then
`CheckToCleanUpLostTCPConnection`. -/
def dsGetRecordList (st : DSGlobals) (inNodeRef : Nat) (ioContinueData : Option Nat)
    (env : GetRecordListEnv) : EnumResult :=
  let body := dsGetRecordListBody st inNodeRef ioContinueData env
  let cleared := if body.1 ≠ eDSNoErr ∧ body.1 ≠ eDSBufferTooSmall ∧ ioContinueData.isSome
      then some 0 else body.2
  let fin := checkToCleanUpLostTCPConnection st body.1 env.getMsgIndex
  ⟨fin.1, fin.2, cleared⟩

/-- Environment of one `dsGetDirNodeList` call, in source order. -/
structure GetDirNodeListEnv where
  getMsgIndex : Nat
  outNodeCountNull : Bool
  verifyDataBuff : Int
  addDirRef : Int
  addBuffLen : Int
  addContext : Int
  sendStatus : Int
  replyStatus : Int
  getResultStatus : Int
  resultCode : Int
  getDataBuff : Int
  getNodeCount : Int
  getContext : Int
  contextValue : Nat

/-- Mirrors the try-block body of `dsGetDirNodeList`: resolve, marshal
(continuation-token append reported with `eParameterReceiveError - 2`), send,
await, read the result — with no tolerance for `eDSBufferTooSmall` here — and
extract. -/
def dsGetDirNodeListBody (st : DSGlobals) (inDirRef : Nat) (ioContinueData : Option Nat)
    (env : GetDirNodeListEnv) : Int × Option Nat :=
  if inDirRef = 0 then (eDSInvalidReference, ioContinueData)
    else if env.outNodeCountNull then (eDSNullParameter, ioContinueData)
    else if env.getMsgIndex > gMaxEndpoints then
      (eDSRefTableIndexOutOfBoundsError, ioContinueData)
    else if (st.gMessageTable env.getMsgIndex).isNone then
      (eDSRefTableEntryNilError, ioContinueData)
    else if env.verifyDataBuff ≠ eDSNoErr then (env.verifyDataBuff, ioContinueData)
    else if env.addDirRef ≠ eDSNoErr then (eParameterSendError, ioContinueData)
    else if env.addBuffLen ≠ eDSNoErr then (eParameterSendError - 1, ioContinueData)
    else if ioContinueData.isSome && env.addContext ≠ eDSNoErr then
      (eParameterReceiveError - 2, ioContinueData)
    else if env.sendStatus ≠ eDSNoErr then (env.sendStatus, ioContinueData)
    else if env.replyStatus ≠ eDSNoErr then (env.replyStatus, ioContinueData)
    else
      let outResult := if env.getResultStatus = eDSNoErr then env.resultCode else eDSNoErr
      if outResult ≠ eDSNoErr then (outResult, ioContinueData)
      else if env.getDataBuff ≠ eDSNoErr then (eDataReceiveErr_NoDataBuff, ioContinueData)
      else if env.getNodeCount ≠ eDSNoErr then (eDataReceiveErr_NoNodeCount, ioContinueData)
      else if ioContinueData.isSome && env.getContext ≠ eDSNoErr then
        (eDataReceiveErr_NoContinueData, ioContinueData)
      else (outResult, if ioContinueData.isSome then some env.contextValue else none)

/-- The whole of `dsGetDirNodeList`: the body above, then
`CheckToCleanUpLostTCPConnection`.  This function has no tail that clears
`*ioContinueData`; an error return leaves the caller's token untouched. -/
def dsGetDirNodeList (st : DSGlobals) (inDirRef : Nat) (ioContinueData : Option Nat)
    (env : GetDirNodeListEnv) : EnumResult :=
  let body := dsGetDirNodeListBody st inDirRef ioContinueData env
  let fin := checkToCleanUpLostTCPConnection st body.1 env.getMsgIndex
  ⟨fin.1, fin.2, body.2⟩

/-- Environment of one `dsFindDirNodes` call, in source order.
`patternIsWellKnown` reflects whether `inPatternMatchType` is one of the seven
well-known node patterns for which no node-name list is sent. -/
structure FindDirNodesEnv where
  getMsgIndex : Nat
  outNodeCountNull : Bool
  patternIsWellKnown : Bool
  verifyNodeNameList : Int
  verifyDataBuff : Int
  addDirRef : Int
  addBuffLen : Int
  addNodeNamePatt : Int
  addPattMatchType : Int
  addContext : Int
  sendStatus : Int
  replyStatus : Int
  getResultStatus : Int
  resultCode : Int
  getDataBuff : Int
  getNodeCount : Int
  getContext : Int
  contextValue : Nat

/-- Mirrors the try-block body of `dsFindDirNodes`: resolve, marshal (the
node-name pattern list is only verified and sent for non-well-known pattern
types; the continuation-token append is reported with
`eParameterReceiveError - 4`), send, await, read the result (no
`eDSBufferTooSmall` tolerance), extract. -/
def dsFindDirNodesBody (st : DSGlobals) (inDirRef : Nat) (ioContinueData : Option Nat)
    (env : FindDirNodesEnv) : Int × Option Nat :=
  if inDirRef = 0 then (eDSInvalidReference, ioContinueData)
    else if env.outNodeCountNull then (eDSNullParameter, ioContinueData)
    else if env.getMsgIndex > gMaxEndpoints then
      (eDSRefTableIndexOutOfBoundsError, ioContinueData)
    else if (st.gMessageTable env.getMsgIndex).isNone then
      (eDSRefTableEntryNilError, ioContinueData)
    else if !env.patternIsWellKnown && env.verifyNodeNameList ≠ eDSNoErr then
      (env.verifyNodeNameList, ioContinueData)
    else if env.verifyDataBuff ≠ eDSNoErr then (env.verifyDataBuff, ioContinueData)
    else if env.addDirRef ≠ eDSNoErr then (eParameterSendError, ioContinueData)
    else if env.addBuffLen ≠ eDSNoErr then (eParameterSendError - 1, ioContinueData)
    else if !env.patternIsWellKnown && env.addNodeNamePatt ≠ eDSNoErr then
      (eParameterSendError - 2, ioContinueData)
    else if env.addPattMatchType ≠ eDSNoErr then (eParameterSendError - 3, ioContinueData)
    else if ioContinueData.isSome && env.addContext ≠ eDSNoErr then
      (eParameterReceiveError - 4, ioContinueData)
    else if env.sendStatus ≠ eDSNoErr then (env.sendStatus, ioContinueData)
    else if env.replyStatus ≠ eDSNoErr then (env.replyStatus, ioContinueData)
    else
      let outResult := if env.getResultStatus = eDSNoErr then env.resultCode else eDSNoErr
      if outResult ≠ eDSNoErr then (outResult, ioContinueData)
      else if env.getDataBuff ≠ eDSNoErr then (eDataReceiveErr_NoDataBuff, ioContinueData)
      else if env.getNodeCount ≠ eDSNoErr then (eDataReceiveErr_NoNodeCount, ioContinueData)
      else if ioContinueData.isSome && env.getContext ≠ eDSNoErr then
        (eDataReceiveErr_NoContinueData, ioContinueData)
      else (outResult, if ioContinueData.isSome then some env.contextValue else none)

/-- The whole of `dsFindDirNodes`: the body above, then
`CheckToCleanUpLostTCPConnection`.  Like `dsGetDirNodeList` it has no
token-clearing tail. -/
def dsFindDirNodes (st : DSGlobals) (inDirRef : Nat) (ioContinueData : Option Nat)
    (env : FindDirNodesEnv) : EnumResult :=
  let body := dsFindDirNodesBody st inDirRef ioContinueData env
  let fin := checkToCleanUpLostTCPConnection st body.1 env.getMsgIndex
  ⟨fin.1, fin.2, body.2⟩

/-- Environment of one `dsDoAttributeValueSearch` call, in source order. -/
structure AttrValueSearchEnv where
  getMsgIndex : Nat
  verifyDataBuff : Int
  verifyRecTypeList : Int
  verifyAttrType : Int
  verifyPatt2Match : Int
  addNodeRef : Int
  addBuffLen : Int
  addRecTypeList : Int
  addAttrType : Int
  addPattMatchType : Int
  addPattMatch : Int
  matchCountGiven : Bool
  addMatchRecCount : Int
  addContext : Int
  sendStatus : Int
  replyStatus : Int
  getResultStatus : Int
  resultCode : Int
  getDataBuff : Int
  getMatchRecCount : Int
  getContext : Int
  contextValue : Nat

/-- Mirrors the try-block body of `dsDoAttributeValueSearch`: resolve, marshal
(here the optional continuation-token append is reported with
`eParameterSendError - 7`), send, await, read the result — tolerating
`eDSBufferTooSmall` — and extract the buffer, match count and output token. -/
def dsDoAttributeValueSearchBody (st : DSGlobals) (inDirNodeRef : Nat)
    (ioContinueData : Option Nat) (env : AttrValueSearchEnv) : Int × Option Nat :=
  if inDirNodeRef = 0 then (eDSInvalidReference, ioContinueData)
    else if env.getMsgIndex > gMaxEndpoints then
      (eDSRefTableIndexOutOfBoundsError, ioContinueData)
    else if (st.gMessageTable env.getMsgIndex).isNone then
      (eDSRefTableEntryNilError, ioContinueData)
    else if env.verifyDataBuff ≠ eDSNoErr then (env.verifyDataBuff, ioContinueData)
    else if env.verifyRecTypeList ≠ eDSNoErr then (env.verifyRecTypeList, ioContinueData)
    else if env.verifyAttrType ≠ eDSNoErr then (env.verifyAttrType, ioContinueData)
    else if env.verifyPatt2Match ≠ eDSNoErr then (env.verifyPatt2Match, ioContinueData)
    else if env.addNodeRef ≠ eDSNoErr then (eParameterSendError, ioContinueData)
    else if env.addBuffLen ≠ eDSNoErr then (eParameterSendError - 1, ioContinueData)
    else if env.addRecTypeList ≠ eDSNoErr then (eParameterSendError - 2, ioContinueData)
    else if env.addAttrType ≠ eDSNoErr then (eParameterSendError - 3, ioContinueData)
    else if env.addPattMatchType ≠ eDSNoErr then (eParameterSendError - 4, ioContinueData)
    else if env.addPattMatch ≠ eDSNoErr then (eParameterSendError - 5, ioContinueData)
    else if env.matchCountGiven && env.addMatchRecCount ≠ eDSNoErr then
      (eParameterSendError - 6, ioContinueData)
    else if ioContinueData.isSome && env.addContext ≠ eDSNoErr then
      (eParameterSendError - 7, ioContinueData)
    else if env.sendStatus ≠ eDSNoErr then (env.sendStatus, ioContinueData)
    else if env.replyStatus ≠ eDSNoErr then (env.replyStatus, ioContinueData)
    else
      let outResult := if env.getResultStatus = eDSNoErr then env.resultCode else eDSNoErr
      if outResult ≠ eDSBufferTooSmall ∧ outResult ≠ eDSNoErr then (outResult, ioContinueData)
      else if env.getDataBuff ≠ eDSNoErr then (eDataReceiveErr_NoDataBuff, ioContinueData)
      else if env.matchCountGiven && env.getMatchRecCount ≠ eDSNoErr then
        (eDataReceiveErr_NoRecMatchCount, ioContinueData)
      else if ioContinueData.isSome && env.getContext ≠ eDSNoErr then
        (eDataReceiveErr_NoContinueData, ioContinueData)
      else (outResult, if ioContinueData.isSome then some env.contextValue else none)

/-- The whole of `dsDoAttributeValueSearch`: the body above, then
`CheckToCleanUpLostTCPConnection`.  Unlike `dsGetRecordList`, this function
has no tail clearing `*ioContinueData` on non-success results. -/
def dsDoAttributeValueSearch (st : DSGlobals) (inDirNodeRef : Nat)
    (ioContinueData : Option Nat) (env : AttrValueSearchEnv) : EnumResult :=
  let body := dsDoAttributeValueSearchBody st inDirNodeRef ioContinueData env
  let fin := checkToCleanUpLostTCPConnection st body.1 env.getMsgIndex
  ⟨fin.1, fin.2, body.2⟩

/-! ### Reachable global states -/

/-- One public-operation step on the globals, each with arbitrary arguments
and external-call outcomes. -/
inductive Step : DSGlobals → DSGlobals → Prop
  | openService (st : DSGlobals) (env : OpenServiceEnv) :
      Step st (dsOpenDirService st env).state
  | openLocal (st : DSGlobals) (p : Option (List Char)) (env : OpenLocalEnv) :
      Step st (dsOpenDirServiceLocal st p env).state
  | openProxy (st : DSGlobals) (env : ProxyEnv) :
      Step st (dsOpenDirServiceProxy st env).state
  | close (st : DSGlobals) (r : Nat) (env : CloseEnv) :
      Step st (dsCloseDirService st r env).1
  | verify (st : DSGlobals) (r : Nat) (env : VerifyEnv) :
      Step st (dsVerifyDirRefNum st r env).state
  | getRecordList (st : DSGlobals) (r : Nat) (tok : Option Nat) (env : GetRecordListEnv) :
      Step st (dsGetRecordList st r tok env).state
  | getDirNodeList (st : DSGlobals) (r : Nat) (tok : Option Nat) (env : GetDirNodeListEnv) :
      Step st (dsGetDirNodeList st r tok env).state
  | findDirNodes (st : DSGlobals) (r : Nat) (tok : Option Nat) (env : FindDirNodesEnv) :
      Step st (dsFindDirNodes st r tok env).state
  | attrValueSearch (st : DSGlobals) (r : Nat) (tok : Option Nat) (env : AttrValueSearchEnv) :
      Step st (dsDoAttributeValueSearch st r tok env).state
  | cleanup (st : DSGlobals) (s : Int) (idx : Nat) :
      Step st (checkToCleanUpLostTCPConnection st s idx).1

/-- The globals reachable from process start through the modelled public
operations. -/
inductive Reachable : DSGlobals → Prop
  | init : Reachable initialGlobals
  | step {st st2 : DSGlobals} : Reachable st → Step st st2 → Reachable st2

/-! ### The source's bounds check against the table size -/

/-- Mirrors the guard `LogThenThrowIfTrueMacro( messageIndex > gMaxEndpoints,
eDSRefTableIndexOutOfBoundsError )` that every handle-resolving operation runs:
`true` iff the resolved index is let through to the table access. -/
def msgIndexBoundsCheckPasses (messageIndex : Nat) : Bool :=
  !(messageIndex > gMaxEndpoints)

/-- Valid indices of the 9-entry array `gMessageTable[kDSFWMaxRemoteConnections+1]`
are exactly 0..8. -/
def isValidMsgTableIndex (idx : Nat) : Bool :=
  idx < gMaxEndpoints

/-! ### Helper lemmas about CheckToCleanUpLostTCPConnection -/

theorem cleanup_status_nonTCP (st : DSGlobals) (s : Int) (idx : Nat)
    (h1 : s ≠ eDSTCPReceiveError) (h2 : s ≠ eDSTCPSendError) :
    (checkToCleanUpLostTCPConnection st s idx).2 = s := by
  unfold checkToCleanUpLostTCPConnection
  split_ifs with a b c
  · rcases c with c | c
    · exact absurd c h1
    · exact absurd c h2
  · rfl
  · rfl
  · rfl

theorem cleanup_status_cases (st : DSGlobals) (s : Int) (idx : Nat) :
    (checkToCleanUpLostTCPConnection st s idx).2 = s ∨
    ((checkToCleanUpLostTCPConnection st s idx).2 = eDSCannotAccessSession ∧
      (s = eDSTCPReceiveError ∨ s = eDSTCPSendError)) := by
  unfold checkToCleanUpLostTCPConnection
  split_ifs with a b c
  · right
    refine ⟨?_, c⟩
    rcases h : st.gMessageTable idx with _ | m <;> simp [h]
  · left; rfl
  · left; rfl
  · left; rfl

theorem cleanup_status_noerr_iff (st : DSGlobals) (s : Int) (idx : Nat) :
    (checkToCleanUpLostTCPConnection st s idx).2 = eDSNoErr ↔ s = eDSNoErr := by
  rcases cleanup_status_cases st s idx with h | ⟨h, htcp⟩
  · rw [h]
  · rw [h]
    constructor
    · intro h2; exact absurd h2 (by decide)
    · intro h2
      rcases htcp with ht | ht <;> rw [h2] at ht <;> exact absurd ht (by decide)

theorem cleanup_status_small_iff (st : DSGlobals) (s : Int) (idx : Nat) :
    (checkToCleanUpLostTCPConnection st s idx).2 = eDSBufferTooSmall ↔
      s = eDSBufferTooSmall := by
  rcases cleanup_status_cases st s idx with h | ⟨h, htcp⟩
  · rw [h]
  · rw [h]
    constructor
    · intro h2; exact absurd h2 (by decide)
    · intro h2
      rcases htcp with ht | ht <;> rw [h2] at ht <;> exact absurd ht (by decide)

theorem cleanup_flags (st : DSGlobals) (s : Int) (idx : Nat) :
    (checkToCleanUpLostTCPConnection st s idx).1.gNormalDaemonInUse =
        st.gNormalDaemonInUse ∧
      (checkToCleanUpLostTCPConnection st s idx).1.gLocalDaemonInUse =
        st.gLocalDaemonInUse := by
  unfold checkToCleanUpLostTCPConnection
  split_ifs <;> first
    | exact ⟨rfl, rfl⟩
    | (rcases st.gMessageTable idx with _ | m <;> exact ⟨rfl, rfl⟩)

/-! ### Concrete states used by witnesses and counterexamples -/

/-- A remote endpoint value used in concrete test states. -/
def sampleRemote : CMessaging :=
  { isMach := false, portOpen := true, localDaemon := false, serverVersion := 1 }

/-- A shared-slot endpoint value used in concrete test states. -/
def sampleMach : CMessaging :=
  { isMach := true, portOpen := true, localDaemon := false, serverVersion := 0 }

/-- A settled (post-fork-reset) state whose only occupant is a remote session
in slot 1. -/
def stateSlot1 : DSGlobals :=
  { gMessageTable := setSlot (fun _ => none) 1 (some sampleRemote)
    gDSConnections := 0
    gNormalDaemonInUse := false
    gLocalDaemonInUse := false
    gProcessForked := false }

/-- A settled state with an empty message table. -/
def stateEmpty : DSGlobals :=
  { gMessageTable := fun _ => none
    gDSConnections := 0
    gNormalDaemonInUse := false
    gLocalDaemonInUse := false
    gProcessForked := false }

/-- A settled state with every remote slot 1..8 occupied. -/
def stateFull : DSGlobals :=
  { gMessageTable := fun j => if j = 0 then none
      else if j < gMaxEndpoints then some sampleRemote else none
    gDSConnections := 0
    gNormalDaemonInUse := false
    gLocalDaemonInUse := false
    gProcessForked := false }

/-! ### Claim C3 -/

theorem cleanup_tcp_teardown (st : DSGlobals) (s : Int) (idx : Nat)
    (hidx : idx ≠ 0) (hs : s = eDSTCPReceiveError ∨ s = eDSTCPSendError) :
    (checkToCleanUpLostTCPConnection st s idx).2 = eDSCannotAccessSession ∧
    (checkToCleanUpLostTCPConnection st s idx).1.gMessageTable idx = none ∧
    (∀ j, j ≠ idx →
      (checkToCleanUpLostTCPConnection st s idx).1.gMessageTable j =
        st.gMessageTable j) := by
  have hnz : s ≠ eDSNoErr := by
    rcases hs with h | h <;> rw [h] <;> decide
  have htcp : s = eDSTCPReceiveError ∨ s = eDSTCPSendError := hs
  refine ⟨?_, ?_, ?_⟩
  · unfold checkToCleanUpLostTCPConnection
    rw [if_pos hnz, if_pos hidx, if_pos htcp]
  · unfold checkToCleanUpLostTCPConnection
    rw [if_pos hnz, if_pos hidx, if_pos htcp]
    rcases h : st.gMessageTable idx with _ | m
    · simpa using h
    · simp [h, setSlot]
  · intro j hj
    unfold checkToCleanUpLostTCPConnection
    rw [if_pos hnz, if_pos hidx, if_pos htcp]
    rcases h : st.gMessageTable idx with _ | m
    · simp [h]
    · simp [h, setSlot, hj]

/-- Environment of a `dsOpenDirServiceProxy` call whose connection and
marshalling succeed and whose `SendInlineMessage` then fails with the raw TCP
send error. -/
def c3ProxyEnv : ProxyEnv :=
  { outDirRefNull := false, ioContinueNull := true, configStatus := 0,
    openTCPStatus := 0, verifyAuthMethod := 0, verifyAuthStep := 0,
    verifyAuthResp := 0, addVers := 0, deallocVers := 0, addAuthMethod := 0,
    addAuthStep := 0, addAuthResp := 0, addContext := 0,
    sendStatus := eDSTCPSendError, replyStatus := 0, getResultStatus := 0,
    resultCode := 0, serverVersion := 0, getDirRefStatus := 0, dirRefValue := 0 }

/-- Counterexample to C3 as stated: `dsOpenDirServiceProxy` is a public
operation whose call ends with a TCP send failure on the claimed remote slot
(message index 1, not 0), yet the status returned to the caller is the raw
`eDSTCPSendError`, not the claimed generic `eDSCannotAccessSession` — the
proxy open never runs `CheckToCleanUpLostTCPConnection`; its own catch blocks
do tear the slot down. -/
theorem claimC3_counterexample :
    (dsOpenDirServiceProxy stateEmpty c3ProxyEnv).status = eDSTCPSendError ∧
    (dsOpenDirServiceProxy stateEmpty c3ProxyEnv).status ≠ eDSCannotAccessSession ∧
    (dsOpenDirServiceProxy stateEmpty c3ProxyEnv).state.gMessageTable 1 = none := by
  decide

/-- C3 (amended): for the public operations that route their return through
`CheckToCleanUpLostTCPConnection` — every handle-resolving operation; the
slot-0-only opens never touch a remote slot — a TCP send/receive failure on a
remote slot (message index not 0) is rewritten to `eDSCannotAccessSession` and
that slot's endpoint is closed, deleted and its table entry set to nil, other
slots untouched; slot 0 is never torn down (state and status pass through
unchanged).  `dsGetRecordList` exhibits exactly this.  The exception is
`dsOpenDirServiceProxy`: a TCP failure of its open exchange tears the claimed
slot down in the operation's own catch blocks, but the raw TCP error is
returned unrewritten. -/
theorem claimC3_amended :
    (∀ (st : DSGlobals) (s : Int) (idx : Nat), idx ≠ 0 →
      s = eDSTCPReceiveError ∨ s = eDSTCPSendError →
      (checkToCleanUpLostTCPConnection st s idx).2 = eDSCannotAccessSession ∧
      (checkToCleanUpLostTCPConnection st s idx).1.gMessageTable idx = none ∧
      (∀ j, j ≠ idx →
        (checkToCleanUpLostTCPConnection st s idx).1.gMessageTable j =
          st.gMessageTable j)) ∧
    (∀ (st2 : DSGlobals) (s2 : Int), checkToCleanUpLostTCPConnection st2 s2 0 = (st2, s2)) ∧
    (∀ (st : DSGlobals) (r : Nat) (tok : Option Nat) (env : GetRecordListEnv),
      r ≠ 0 → env.getMsgIndex ≠ 0 → ¬(env.getMsgIndex > gMaxEndpoints) →
      (st.gMessageTable env.getMsgIndex).isNone = false →
      env.verifyDataBuff = eDSNoErr → env.verifyRecNameList = eDSNoErr →
      env.verifyRecTypeList = eDSNoErr → env.verifyAttrTypeList = eDSNoErr →
      env.addNodeRef = eDSNoErr → env.addBuffOrLen = eDSNoErr →
      env.addRecNameList = eDSNoErr → env.addPattMatch = eDSNoErr →
      env.addRecTypeList = eDSNoErr → env.addAttrTypeList = eDSNoErr →
      env.addAttrInfoOnly = eDSNoErr → env.addRecEntryCount = eDSNoErr →
      env.addContext = eDSNoErr → env.sendStatus = eDSTCPSendError →
      (dsGetRecordList st r tok env).status = eDSCannotAccessSession ∧
      (dsGetRecordList st r tok env).state.gMessageTable env.getMsgIndex = none) ∧
    (∀ (st : DSGlobals) (env : ProxyEnv), env.outDirRefNull = false →
      st.gProcessForked = false → firstFreeSlot st.gMessageTable ≠ 0 →
      env.configStatus = eDSNoErr → env.openTCPStatus = eDSNoErr →
      env.verifyAuthMethod = eDSNoErr → env.verifyAuthStep = eDSNoErr →
      env.verifyAuthResp = eDSNoErr → env.addVers = eDSNoErr →
      env.deallocVers = eDSNoErr → env.addAuthMethod = eDSNoErr →
      env.addAuthStep = eDSNoErr → env.addAuthResp = eDSNoErr →
      env.ioContinueNull = true → env.sendStatus = eDSTCPSendError →
      (dsOpenDirServiceProxy st env).status = eDSTCPSendError ∧
      (dsOpenDirServiceProxy st env).state.gMessageTable
        (firstFreeSlot st.gMessageTable) = none) := by
  refine ⟨?_, ?_, ?_, ?_⟩
  · intro st s idx hidx hs
    exact cleanup_tcp_teardown st s idx hidx hs
  · intro st2 s2
    unfold checkToCleanUpLostTCPConnection
    by_cases h : s2 ≠ eDSNoErr
    · rw [if_pos h, if_neg (by decide : ¬(0 : Nat) ≠ 0)]
    · rw [if_neg h]
  · intro st r tok env hr hidx hb hnil e1 e2 e3 e4 e5 e6 e7 e8 e9 e10 e11 e12 e13
      hsend
    have hbody : dsGetRecordListBody st r tok env = (eDSTCPSendError, tok) := by
      simp [dsGetRecordListBody, hr, hidx, hb, hnil, e1, e2, e3, e4, e5, e6, e7, e8,
        e9, e10, e11, e12, e13, hsend, eDSTCPSendError, eDSNoErr]
    have hcl := cleanup_tcp_teardown st eDSTCPSendError env.getMsgIndex hidx
      (Or.inr rfl)
    refine ⟨?_, ?_⟩
    · have hst : (dsGetRecordList st r tok env).status =
          (checkToCleanUpLostTCPConnection st eDSTCPSendError env.getMsgIndex).2 := by
        simp only [dsGetRecordList, hbody]
      rw [hst]
      exact hcl.1
    · have hst : (dsGetRecordList st r tok env).state.gMessageTable env.getMsgIndex =
          (checkToCleanUpLostTCPConnection st eDSTCPSendError
            env.getMsgIndex).1.gMessageTable env.getMsgIndex := by
        simp only [dsGetRecordList, hbody]
      rw [hst]
      exact hcl.2.1
  · intro st env hnull hfork hslot hcfg hopen hv1 hv2 hv3 ha1 ha2 ha3 ha4 ha5 hioc
      hsend
    refine ⟨?_, ?_⟩
    · simp [dsOpenDirServiceProxy, hnull, hfork, hslot, hcfg, hopen, hv1, hv2, hv3,
        ha1, ha2, ha3, ha4, ha5, hioc, hsend, eDSTCPSendError, eDSNoErr]
    · simp [dsOpenDirServiceProxy, hnull, hfork, hslot, hcfg, hopen, hv1, hv2, hv3,
        ha1, ha2, ha3, ha4, ha5, hioc, hsend, setSlot, eDSTCPSendError, eDSNoErr]

/-- Environment for `dsGetRecordList` whose send fails with the TCP send
error, all marshalling having succeeded. -/
def c3RecListEnv : GetRecordListEnv :=
  { getMsgIndex := 1, verifyDataBuff := 0, verifyRecNameList := 0, verifyRecTypeList := 0,
    verifyAttrTypeList := 0, addNodeRef := 0, addBuffOrLen := 0, addRecNameList := 0,
    addPattMatch := 0, addRecTypeList := 0, addAttrTypeList := 0, addAttrInfoOnly := 0,
    recCountGiven := true, addRecEntryCount := 0, addContext := 0,
    sendStatus := eDSTCPSendError, replyStatus := 0, getResultStatus := 0,
    resultCode := 0, getDataBuff := 0, getRecEntryCount := 0, getContext := 0,
    contextValue := 0 }

/-- Witness for C3 (amended) at concrete inputs: the cleanup rewrite and
teardown on occupied remote slot 1, `dsGetRecordList` ending a TCP send
failure with `eDSCannotAccessSession` and slot 1 freed, and the slot-0
pass-through. -/
theorem claimC3_amended_witness :
    (checkToCleanUpLostTCPConnection stateSlot1 eDSTCPSendError 1).2 =
      eDSCannotAccessSession ∧
    (checkToCleanUpLostTCPConnection stateSlot1 eDSTCPSendError 1).1.gMessageTable 1 =
      none ∧
    (dsGetRecordList stateSlot1 7 (some 5) c3RecListEnv).status =
      eDSCannotAccessSession ∧
    (dsGetRecordList stateSlot1 7 (some 5) c3RecListEnv).state.gMessageTable 1 =
      none ∧
    checkToCleanUpLostTCPConnection stateEmpty eDSTCPSendError 0 =
      (stateEmpty, eDSTCPSendError) := by
  refine ⟨?_, ?_, ?_, ?_, ?_⟩
  · exact (claimC3_amended.1 stateSlot1 eDSTCPSendError 1 (by decide) (Or.inr rfl)).1
  · exact (claimC3_amended.1 stateSlot1 eDSTCPSendError 1 (by decide) (Or.inr rfl)).2.1
  · exact (claimC3_amended.2.2.1 stateSlot1 7 (some 5) c3RecListEnv (by decide)
      (by decide) (by decide) (by decide) rfl rfl rfl rfl rfl rfl rfl rfl rfl rfl
      rfl rfl rfl rfl).1
  · exact (claimC3_amended.2.2.1 stateSlot1 7 (some 5) c3RecListEnv (by decide)
      (by decide) (by decide) (by decide) rfl rfl rfl rfl rfl rfl rfl rfl rfl rfl
      rfl rfl rfl rfl).2
  · exact claimC3_amended.2.1 stateEmpty eDSTCPSendError

/-! ### Claim C9 -/

/-- C9: the resolution-failure guard admits the message-table index 9: the
bounds check `messageIndex > gMaxEndpoints` passes for `messageIndex = 9`
although the 9-entry array `gMessageTable` has valid indices 0..8 only, so the
subsequent `gMessageTable[messageIndex]` access of, e.g., `dsCloseDirService`
reads one cell past the array.  Concretely, `dsCloseDirService` resolving to
index 9 gets past the out-of-bounds guard and reports `eDSRefTableEntryNilError`
from the (out-of-bounds) nil test instead. -/
theorem claimC9_bounds_check_off_by_one :
    msgIndexBoundsCheckPasses 9 = true ∧
    isValidMsgTableIndex 9 = false ∧
    (dsCloseDirService stateSlot1 7
      { getMsgIndex := 9, addDirRef := 0, addConnCount := 0, sendStatus := 0,
        replyStatus := 0, getResultStatus := 0, resultCode := 0 }).2 =
      eDSRefTableEntryNilError := by
  decide

/-! ### Claim C10 -/

/-- C10: `dsVerifyDirRefNum` returns `eDSNoErr` immediately for the hard-wired
reference `0x00F0F0F0` and `eDSInvalidReference` for a zero reference — in both
cases without consulting the reference map or contacting the daemon — and the
verify RPC is only ever performed for reference values other than these two. -/
theorem claimC10_verify_shortcuts :
    (∀ (st : DSGlobals) (env : VerifyEnv),
      dsVerifyDirRefNum st 0x00F0F0F0 env = ⟨st, eDSNoErr, false, false⟩) ∧
    (∀ (st : DSGlobals) (env : VerifyEnv),
      dsVerifyDirRefNum st 0 env = ⟨st, eDSInvalidReference, false, false⟩) ∧
    (∀ (st : DSGlobals) (r : Nat) (env : VerifyEnv),
      (dsVerifyDirRefNum st r env).didRPC = true → r ≠ 0x00F0F0F0 ∧ r ≠ 0) := by
  refine ⟨?_, ?_, ?_⟩
  · intro st env
    unfold dsVerifyDirRefNum
    rw [if_pos rfl]
  · intro st env
    unfold dsVerifyDirRefNum
    rw [if_neg (by decide), if_pos rfl]
  · intro st r env h
    constructor
    · rintro rfl
      rw [show dsVerifyDirRefNum st 0x00F0F0F0 env = ⟨st, eDSNoErr, false, false⟩ from by
        unfold dsVerifyDirRefNum; rw [if_pos rfl]] at h
      simp at h
    · rintro rfl
      rw [show dsVerifyDirRefNum st 0 env = ⟨st, eDSInvalidReference, false, false⟩ from by
        unfold dsVerifyDirRefNum; rw [if_neg (by decide), if_pos rfl]] at h
      simp at h

/-- Witness for C10 at concrete inputs: the shortcut values on `stateSlot1`,
and an RPC-reaching call on reference 5 whose reference is indeed neither
hard-wired value. -/
theorem claimC10_witness :
    dsVerifyDirRefNum stateSlot1 0x00F0F0F0
        { getMsgIndex := 1, addDirRef := 0, sendStatus := 0, replyStatus := 0,
          getResultStatus := 0, resultCode := 0 } =
      ⟨stateSlot1, eDSNoErr, false, false⟩ ∧
    (dsVerifyDirRefNum stateSlot1 5
        { getMsgIndex := 1, addDirRef := 0, sendStatus := 0, replyStatus := 0,
          getResultStatus := 0, resultCode := 0 }).didRPC = true ∧
    (5 : Nat) ≠ 0x00F0F0F0 ∧ (5 : Nat) ≠ 0 := by
  refine ⟨?_, by decide, ?_⟩
  · exact (claimC10_verify_shortcuts).1 stateSlot1 _
  · exact (claimC10_verify_shortcuts).2.2 stateSlot1 5
      { getMsgIndex := 1, addDirRef := 0, sendStatus := 0, replyStatus := 0,
        getResultStatus := 0, resultCode := 0 } (by decide)

/-! ### Claim C8 -/

/-- The over-length input of C8: exactly `PATH_MAX` characters, which the
source intends to reject. -/
def longPath : List Char := List.replicate PATH_MAX 'a'

set_option maxRecDepth 100000 in
/-- C8: the path-normalization prologue of `dsOpenDirServiceLocal` does apply
the default for a nil path and for the literal `"Default"`, and does force a
trailing separator — but the over-length rejection is dead: a path of length
`PATH_MAX` sails through (the guard calls a throw-if-error macro on a status
that still holds `eDSNoErr`), is not rejected with `eDSInvalidFilePath`, and
even gets the slash appended, growing to `PATH_MAX + 1` characters (in the C
code this write lands on the buffer's last byte and destroys the NUL
terminator). -/
theorem claimC8_normalization :
    dsLocalNormalizePath none = .ok kDefaultLocalPath ∧
    dsLocalNormalizePath (some "Default".toList) = .ok kDefaultLocalPath ∧
    dsLocalNormalizePath (some []) = .ok kDefaultLocalPath ∧
    dsLocalNormalizePath (some "/foo".toList) = .ok "/foo/".toList ∧
    dsLocalNormalizePath (some longPath) = .ok (longPath ++ ['/']) ∧
    dsLocalNormalizePath (some longPath) ≠ .error eDSInvalidFilePath ∧
    (longPath ++ ['/']).length = PATH_MAX + 1 := by
  decide

/-! ### Claim C1 -/

theorem tokenCase3 (tok : Option Nat) (c : Prop) [Decidable c] (e : Int)
    (rest : Int × Option Nat)
    (h : ¬c → rest.2 = tok ∨ rest.1 = eDSNoErr ∨ rest.1 = eDSBufferTooSmall) :
    (if c then (e, tok) else rest).2 = tok ∨
      (if c then (e, tok) else rest).1 = eDSNoErr ∨
      (if c then (e, tok) else rest).1 = eDSBufferTooSmall := by
  split_ifs with hc
  · left; rfl
  · exact h hc

theorem tokenCase2 (tok : Option Nat) (c : Prop) [Decidable c] (e : Int)
    (rest : Int × Option Nat)
    (h : ¬c → rest.2 = tok ∨ rest.1 = eDSNoErr) :
    (if c then (e, tok) else rest).2 = tok ∨
      (if c then (e, tok) else rest).1 = eDSNoErr := by
  split_ifs with hc
  · left; rfl
  · exact h hc

theorem davBody_cases (st : DSGlobals) (r : Nat) (tok : Option Nat)
    (env : AttrValueSearchEnv) :
    (dsDoAttributeValueSearchBody st r tok env).2 = tok ∨
    (dsDoAttributeValueSearchBody st r tok env).1 = eDSNoErr ∨
    (dsDoAttributeValueSearchBody st r tok env).1 = eDSBufferTooSmall := by
  unfold dsDoAttributeValueSearchBody
  iterate 17 (apply tokenCase3; intro _)
  apply tokenCase3
  intro hc
  iterate 3 (apply tokenCase3; intro _)
  right
  have : (if env.getResultStatus = eDSNoErr then env.resultCode else eDSNoErr) = eDSNoErr ∨
      (if env.getResultStatus = eDSNoErr then env.resultCode else eDSNoErr) =
        eDSBufferTooSmall := by
    tauto
  exact this

theorem gdnlBody_cases (st : DSGlobals) (r : Nat) (tok : Option Nat)
    (env : GetDirNodeListEnv) :
    (dsGetDirNodeListBody st r tok env).2 = tok ∨
    (dsGetDirNodeListBody st r tok env).1 = eDSNoErr := by
  unfold dsGetDirNodeListBody
  iterate 10 (apply tokenCase2; intro _)
  apply tokenCase2
  intro hc
  iterate 3 (apply tokenCase2; intro _)
  right
  have : (if env.getResultStatus = eDSNoErr then env.resultCode else eDSNoErr) =
      eDSNoErr := by
    tauto
  exact this

theorem fdnBody_cases (st : DSGlobals) (r : Nat) (tok : Option Nat)
    (env : FindDirNodesEnv) :
    (dsFindDirNodesBody st r tok env).2 = tok ∨
    (dsFindDirNodesBody st r tok env).1 = eDSNoErr := by
  unfold dsFindDirNodesBody
  iterate 13 (apply tokenCase2; intro _)
  apply tokenCase2
  intro hc
  iterate 3 (apply tokenCase2; intro _)
  right
  have : (if env.getResultStatus = eDSNoErr then env.resultCode else eDSNoErr) =
      eDSNoErr := by
    tauto
  exact this

theorem davBody_token_preserved (st : DSGlobals) (r : Nat) (tok : Option Nat)
    (env : AttrValueSearchEnv)
    (h0 : (dsDoAttributeValueSearchBody st r tok env).1 ≠ eDSNoErr)
    (hsmall : (dsDoAttributeValueSearchBody st r tok env).1 ≠ eDSBufferTooSmall) :
    (dsDoAttributeValueSearchBody st r tok env).2 = tok := by
  rcases davBody_cases st r tok env with h | h | h
  · exact h
  · exact absurd h h0
  · exact absurd h hsmall

theorem gdnlBody_token_preserved (st : DSGlobals) (r : Nat) (tok : Option Nat)
    (env : GetDirNodeListEnv)
    (h0 : (dsGetDirNodeListBody st r tok env).1 ≠ eDSNoErr) :
    (dsGetDirNodeListBody st r tok env).2 = tok := by
  rcases gdnlBody_cases st r tok env with h | h
  · exact h
  · exact absurd h h0

theorem fdnBody_token_preserved (st : DSGlobals) (r : Nat) (tok : Option Nat)
    (env : FindDirNodesEnv)
    (h0 : (dsFindDirNodesBody st r tok env).1 ≠ eDSNoErr) :
    (dsFindDirNodesBody st r tok env).2 = tok := by
  rcases fdnBody_cases st r tok env with h | h
  · exact h
  · exact absurd h h0

/-- C1 (amended): among the enumeration operations, only `dsGetRecordList`
writes the "no more data" value 0 into a caller-supplied `*ioContinueData` when
it returns a result that is neither success nor buffer-too-small.
`dsDoAttributeValueSearch` (whose WithData/Multiple variants share its exact
shape), `dsGetDirNodeList` and `dsFindDirNodes` return from such calls with
`*ioContinueData` unmodified — the caller keeps the stale input token. -/
theorem claimC1_amended :
    (∀ (st : DSGlobals) (r : Nat) (tok : Option Nat) (env : GetRecordListEnv),
      (dsGetRecordList st r tok env).status ≠ eDSNoErr →
      (dsGetRecordList st r tok env).status ≠ eDSBufferTooSmall →
      tok.isSome → (dsGetRecordList st r tok env).continueData = some 0) ∧
    (∀ (st : DSGlobals) (r : Nat) (tok : Option Nat) (env : AttrValueSearchEnv),
      (dsDoAttributeValueSearch st r tok env).status ≠ eDSNoErr →
      (dsDoAttributeValueSearch st r tok env).status ≠ eDSBufferTooSmall →
      (dsDoAttributeValueSearch st r tok env).continueData = tok) ∧
    (∀ (st : DSGlobals) (r : Nat) (tok : Option Nat) (env : GetDirNodeListEnv),
      (dsGetDirNodeList st r tok env).status ≠ eDSNoErr →
      (dsGetDirNodeList st r tok env).continueData = tok) ∧
    (∀ (st : DSGlobals) (r : Nat) (tok : Option Nat) (env : FindDirNodesEnv),
      (dsFindDirNodes st r tok env).status ≠ eDSNoErr →
      (dsFindDirNodes st r tok env).continueData = tok) := by
  refine ⟨?_, ?_, ?_, ?_⟩
  · intro st r tok env h0 hsmall hsome
    have hb0 : (dsGetRecordListBody st r tok env).1 ≠ eDSNoErr := by
      intro hb
      exact h0 ((cleanup_status_noerr_iff st _ env.getMsgIndex).mpr hb)
    have hbs : (dsGetRecordListBody st r tok env).1 ≠ eDSBufferTooSmall := by
      intro hb
      exact hsmall ((cleanup_status_small_iff st _ env.getMsgIndex).mpr hb)
    show (if (dsGetRecordListBody st r tok env).1 ≠ eDSNoErr ∧
        (dsGetRecordListBody st r tok env).1 ≠ eDSBufferTooSmall ∧ tok.isSome
      then some 0 else (dsGetRecordListBody st r tok env).2) = some 0
    rw [if_pos ⟨hb0, hbs, hsome⟩]
  · intro st r tok env h0 hsmall
    have hb0 : (dsDoAttributeValueSearchBody st r tok env).1 ≠ eDSNoErr := by
      intro hb
      exact h0 ((cleanup_status_noerr_iff st _ env.getMsgIndex).mpr hb)
    have hbs : (dsDoAttributeValueSearchBody st r tok env).1 ≠ eDSBufferTooSmall := by
      intro hb
      exact hsmall ((cleanup_status_small_iff st _ env.getMsgIndex).mpr hb)
    exact davBody_token_preserved st r tok env hb0 hbs
  · intro st r tok env h0
    have hb0 : (dsGetDirNodeListBody st r tok env).1 ≠ eDSNoErr := by
      intro hb
      exact h0 ((cleanup_status_noerr_iff st _ env.getMsgIndex).mpr hb)
    exact gdnlBody_token_preserved st r tok env hb0
  · intro st r tok env h0
    have hb0 : (dsFindDirNodesBody st r tok env).1 ≠ eDSNoErr := by
      intro hb
      exact h0 ((cleanup_status_noerr_iff st _ env.getMsgIndex).mpr hb)
    exact fdnBody_token_preserved st r tok env hb0

/-- Environment used by the C1 counterexample and witness: marshalling and
transport all succeed, the daemon replies with `eDSInvalidReference` (a
non-success, non-buffer-too-small result). -/
def c1SearchEnv : AttrValueSearchEnv :=
  { getMsgIndex := 1, verifyDataBuff := 0, verifyRecTypeList := 0, verifyAttrType := 0,
    verifyPatt2Match := 0, addNodeRef := 0, addBuffLen := 0, addRecTypeList := 0,
    addAttrType := 0, addPattMatchType := 0, addPattMatch := 0, matchCountGiven := true,
    addMatchRecCount := 0, addContext := 0, sendStatus := 0, replyStatus := 0,
    getResultStatus := 0, resultCode := eDSInvalidReference, getDataBuff := 0,
    getMatchRecCount := 0, getContext := 0, contextValue := 0 }

/-- Environment for `dsGetRecordList` with the same failing daemon reply. -/
def c1RecListEnv : GetRecordListEnv :=
  { getMsgIndex := 1, verifyDataBuff := 0, verifyRecNameList := 0, verifyRecTypeList := 0,
    verifyAttrTypeList := 0, addNodeRef := 0, addBuffOrLen := 0, addRecNameList := 0,
    addPattMatch := 0, addRecTypeList := 0, addAttrTypeList := 0, addAttrInfoOnly := 0,
    recCountGiven := true, addRecEntryCount := 0, addContext := 0, sendStatus := 0,
    replyStatus := 0, getResultStatus := 0, resultCode := eDSInvalidReference,
    getDataBuff := 0, getRecEntryCount := 0, getContext := 0, contextValue := 0 }

/-- Counterexample to C1 as stated: `dsDoAttributeValueSearch` — one of the
operations the claim names — completes with the non-success,
non-buffer-too-small result `eDSInvalidReference` while the caller supplied a
continuation pointer holding token 5, yet returns with `*ioContinueData`
still 5, not the claimed "no more data" value 0. -/
theorem claimC1_counterexample :
    (dsDoAttributeValueSearch stateSlot1 7 (some 5) c1SearchEnv).status =
      eDSInvalidReference ∧
    (dsDoAttributeValueSearch stateSlot1 7 (some 5) c1SearchEnv).status ≠ eDSNoErr ∧
    (dsDoAttributeValueSearch stateSlot1 7 (some 5) c1SearchEnv).status ≠
      eDSBufferTooSmall ∧
    (dsDoAttributeValueSearch stateSlot1 7 (some 5) c1SearchEnv).continueData = some 5 ∧
    (dsDoAttributeValueSearch stateSlot1 7 (some 5) c1SearchEnv).continueData ≠
      some 0 := by
  decide

/-- Witness for C1 (amended) at concrete inputs: the same failing daemon reply
makes `dsGetRecordList` clear the token to 0, while `dsDoAttributeValueSearch`
keeps the stale token 6. -/
theorem claimC1_amended_witness :
    (dsGetRecordList stateSlot1 7 (some 5) c1RecListEnv).continueData = some 0 ∧
    (dsDoAttributeValueSearch stateSlot1 7 (some 6) c1SearchEnv).continueData =
      some 6 := by
  refine ⟨?_, ?_⟩
  · exact claimC1_amended.1 stateSlot1 7 (some 5) c1RecListEnv (by decide) (by decide)
      (by decide)
  · exact claimC1_amended.2.1 stateSlot1 7 (some 6) c1SearchEnv (by decide) (by decide)

/-! ### Claim C2 -/

/-- Environment of a `dsCloseDirService` call whose second append
(`Add_Value_ToMsg(gDSConnections, kNodeCount)`) fails. -/
def c2CloseEnv : CloseEnv :=
  { getMsgIndex := 1, addDirRef := 0, addConnCount := -5, sendStatus := 0,
    replyStatus := 0, getResultStatus := 0, resultCode := 0 }

/-- Counterexample to C2 as stated: in `dsCloseDirService` the append of the
field at zero-based index 1 (the connection count) fails, yet the returned
error is the unshifted `eParameterSendError`, not `eParameterSendError - 1`:
the offset-by-index rule is not uniform across operations. -/
theorem claimC2_counterexample :
    (dsCloseDirService stateSlot1 7 c2CloseEnv).2 = eParameterSendError ∧
    eParameterSendError ≠ eParameterSendError - 1 := by
  decide

/-- C2 (amended): the positional offsets are per-call-site constants, not a
uniform `base - i` rule.  In `dsOpenDirServiceProxy` the failure of appended
field `i ∈ {0,1,2,3}` (version buffer, auth method, auth step, auth response)
is reported as `eParameterSendError - i`, but the optional continuation field
at index 4 is reported as `eParameterReceiveError - 4`; and in
`dsCloseDirService` the failure of either of its two fields is reported with
the unshifted `eParameterSendError`. -/
theorem claimC2_amended :
    (∀ (st : DSGlobals) (env : ProxyEnv), env.outDirRefNull = false →
      st.gProcessForked = false → firstFreeSlot st.gMessageTable ≠ 0 →
      env.configStatus = eDSNoErr → env.openTCPStatus = eDSNoErr →
      env.verifyAuthMethod = eDSNoErr → env.verifyAuthStep = eDSNoErr →
      env.verifyAuthResp = eDSNoErr →
      env.addVers ≠ eDSNoErr →
      (dsOpenDirServiceProxy st env).status = eParameterSendError) ∧
    (∀ (st : DSGlobals) (env : ProxyEnv), env.outDirRefNull = false →
      st.gProcessForked = false → firstFreeSlot st.gMessageTable ≠ 0 →
      env.configStatus = eDSNoErr → env.openTCPStatus = eDSNoErr →
      env.verifyAuthMethod = eDSNoErr → env.verifyAuthStep = eDSNoErr →
      env.verifyAuthResp = eDSNoErr → env.addVers = eDSNoErr →
      env.deallocVers = eDSNoErr →
      env.addAuthMethod ≠ eDSNoErr →
      (dsOpenDirServiceProxy st env).status = eParameterSendError - 1) ∧
    (∀ (st : DSGlobals) (env : ProxyEnv), env.outDirRefNull = false →
      st.gProcessForked = false → firstFreeSlot st.gMessageTable ≠ 0 →
      env.configStatus = eDSNoErr → env.openTCPStatus = eDSNoErr →
      env.verifyAuthMethod = eDSNoErr → env.verifyAuthStep = eDSNoErr →
      env.verifyAuthResp = eDSNoErr → env.addVers = eDSNoErr →
      env.deallocVers = eDSNoErr → env.addAuthMethod = eDSNoErr →
      env.addAuthStep ≠ eDSNoErr →
      (dsOpenDirServiceProxy st env).status = eParameterSendError - 2) ∧
    (∀ (st : DSGlobals) (env : ProxyEnv), env.outDirRefNull = false →
      st.gProcessForked = false → firstFreeSlot st.gMessageTable ≠ 0 →
      env.configStatus = eDSNoErr → env.openTCPStatus = eDSNoErr →
      env.verifyAuthMethod = eDSNoErr → env.verifyAuthStep = eDSNoErr →
      env.verifyAuthResp = eDSNoErr → env.addVers = eDSNoErr →
      env.deallocVers = eDSNoErr → env.addAuthMethod = eDSNoErr →
      env.addAuthStep = eDSNoErr →
      env.addAuthResp ≠ eDSNoErr →
      (dsOpenDirServiceProxy st env).status = eParameterSendError - 3) ∧
    (∀ (st : DSGlobals) (env : ProxyEnv), env.outDirRefNull = false →
      st.gProcessForked = false → firstFreeSlot st.gMessageTable ≠ 0 →
      env.configStatus = eDSNoErr → env.openTCPStatus = eDSNoErr →
      env.verifyAuthMethod = eDSNoErr → env.verifyAuthStep = eDSNoErr →
      env.verifyAuthResp = eDSNoErr → env.addVers = eDSNoErr →
      env.deallocVers = eDSNoErr → env.addAuthMethod = eDSNoErr →
      env.addAuthStep = eDSNoErr → env.addAuthResp = eDSNoErr →
      env.ioContinueNull = false → env.addContext ≠ eDSNoErr →
      (dsOpenDirServiceProxy st env).status = eParameterReceiveError - 4) ∧
    (∀ (st : DSGlobals) (r : Nat) (env : CloseEnv), r ≠ 0 →
      ¬(env.getMsgIndex > gMaxEndpoints) →
      (st.gMessageTable env.getMsgIndex).isNone = false →
      env.addDirRef ≠ eDSNoErr →
      (dsCloseDirService st r env).2 = eParameterSendError) ∧
    (∀ (st : DSGlobals) (r : Nat) (env : CloseEnv), r ≠ 0 →
      ¬(env.getMsgIndex > gMaxEndpoints) →
      (st.gMessageTable env.getMsgIndex).isNone = false →
      env.addDirRef = eDSNoErr → env.addConnCount ≠ eDSNoErr →
      (dsCloseDirService st r env).2 = eParameterSendError) := by
  refine ⟨?_, ?_, ?_, ?_, ?_, ?_, ?_⟩
  · intro st env hnull hfork hslot hcfg hopen hv1 hv2 hv3 hx
    simp [dsOpenDirServiceProxy, hnull, hfork, hslot, hcfg, hopen, hv1, hv2, hv3, hx]
  · intro st env hnull hfork hslot hcfg hopen hv1 hv2 hv3 ha1 ha2 hx
    simp [dsOpenDirServiceProxy, hnull, hfork, hslot, hcfg, hopen, hv1, hv2, hv3,
      ha1, ha2, hx]
  · intro st env hnull hfork hslot hcfg hopen hv1 hv2 hv3 ha1 ha2 ha3 hx
    simp [dsOpenDirServiceProxy, hnull, hfork, hslot, hcfg, hopen, hv1, hv2, hv3,
      ha1, ha2, ha3, hx]
  · intro st env hnull hfork hslot hcfg hopen hv1 hv2 hv3 ha1 ha2 ha3 ha4 hx
    simp [dsOpenDirServiceProxy, hnull, hfork, hslot, hcfg, hopen, hv1, hv2, hv3,
      ha1, ha2, ha3, ha4, hx]
  · intro st env hnull hfork hslot hcfg hopen hv1 hv2 hv3 ha1 ha2 ha3 ha4 ha5 hioc hx
    simp [dsOpenDirServiceProxy, hnull, hfork, hslot, hcfg, hopen, hv1, hv2, hv3,
      ha1, ha2, ha3, ha4, ha5, hioc, hx]
  · intro st r env hr hb hnil hx
    have key : (dsCloseDirService st r env).2 =
        (checkToCleanUpLostTCPConnection st eParameterSendError env.getMsgIndex).2 := by
      simp [dsCloseDirService, dsCloseDirServiceRPCError, hr, hb, hnil, hx]
    rw [key]
    exact cleanup_status_nonTCP st eParameterSendError env.getMsgIndex
      (by decide) (by decide)
  · intro st r env hr hb hnil ha hx
    have key : (dsCloseDirService st r env).2 =
        (checkToCleanUpLostTCPConnection st eParameterSendError env.getMsgIndex).2 := by
      simp [dsCloseDirService, dsCloseDirServiceRPCError, hr, hb, hnil, ha, hx]
    rw [key]
    exact cleanup_status_nonTCP st eParameterSendError env.getMsgIndex
      (by decide) (by decide)

/-- Witness for C2 (amended) at concrete inputs: forcing the proxy's second
appended field (zero-based index 1) yields `eParameterSendError - 1`, forcing
its continuation field yields `eParameterReceiveError - 4`, and forcing either
close field yields the unshifted base. -/
theorem claimC2_amended_witness :
    (dsOpenDirServiceProxy stateEmpty
        { outDirRefNull := false, ioContinueNull := false, configStatus := 0,
          openTCPStatus := 0, verifyAuthMethod := 0, verifyAuthStep := 0,
          verifyAuthResp := 0, addVers := 0, deallocVers := 0, addAuthMethod := -9,
          addAuthStep := 0, addAuthResp := 0, addContext := 0, sendStatus := 0,
          replyStatus := 0, getResultStatus := 0, resultCode := 0, serverVersion := 1,
          getDirRefStatus := 0, dirRefValue := 42 }).status = eParameterSendError - 1 ∧
    (dsOpenDirServiceProxy stateEmpty
        { outDirRefNull := false, ioContinueNull := false, configStatus := 0,
          openTCPStatus := 0, verifyAuthMethod := 0, verifyAuthStep := 0,
          verifyAuthResp := 0, addVers := 0, deallocVers := 0, addAuthMethod := 0,
          addAuthStep := 0, addAuthResp := 0, addContext := -9, sendStatus := 0,
          replyStatus := 0, getResultStatus := 0, resultCode := 0, serverVersion := 1,
          getDirRefStatus := 0, dirRefValue := 42 }).status =
      eParameterReceiveError - 4 ∧
    (dsCloseDirService stateSlot1 7
        { getMsgIndex := 1, addDirRef := -9, addConnCount := 0, sendStatus := 0,
          replyStatus := 0, getResultStatus := 0, resultCode := 0 }).2 =
      eParameterSendError := by
  refine ⟨?_, ?_, ?_⟩
  · exact claimC2_amended.2.1 stateEmpty _ rfl rfl (by decide) rfl rfl rfl rfl rfl rfl
      rfl (by decide)
  · exact claimC2_amended.2.2.2.2.1 stateEmpty _ rfl rfl (by decide) rfl rfl rfl rfl
      rfl rfl rfl rfl rfl rfl rfl (by decide)
  · exact claimC2_amended.2.2.2.2.2.1 stateSlot1 7 _ (by decide) (by decide) (by decide)
      (by decide)

/-! ### Claim C7 -/

theorem proxyTearCase (j : Nat) (c : Prop) [Decidable c] (a b : OpResult)
    (ha : a.state.gMessageTable j = none)
    (hb : b.status ≠ eDSNoErr → b.state.gMessageTable j = none) :
    (if c then a else b).status ≠ eDSNoErr →
      (if c then a else b).state.gMessageTable j = none := by
  split_ifs with hc
  · intro _; exact ha
  · exact hb

/-- Environment of a `dsOpenDirServiceProxy` call whose `ConfigTCP` fails with
-7 while everything else would succeed. -/
def c7ConfigFailEnv : ProxyEnv :=
  { outDirRefNull := false, ioContinueNull := true, configStatus := -7,
    openTCPStatus := 0, verifyAuthMethod := 0, verifyAuthStep := 0,
    verifyAuthResp := 0, addVers := 0, deallocVers := 0, addAuthMethod := 0,
    addAuthStep := 0, addAuthResp := 0, addContext := 0, sendStatus := 0,
    replyStatus := 0, getResultStatus := 0, resultCode := 0, serverVersion := 0,
    getDirRefStatus := 0, dirRefValue := 0 }

/-- Environment of a `dsOpenDirServiceProxy` call whose `OpenTCPEndpoint`
fails with -8. -/
def c7OpenFailEnv : ProxyEnv :=
  { c7ConfigFailEnv with configStatus := 0, openTCPStatus := -8 }

/-- Environment of a `dsOpenDirServiceProxy` call that fails in the reply
phase: the daemon answers the open request with `eDSInvalidReference`. -/
def c7RpcFailEnv : ProxyEnv :=
  { c7ConfigFailEnv with configStatus := 0, resultCode := eDSInvalidReference }

/-- Counterexample to C7 as stated: a configuration (`ConfigTCP`) failure —
one of the failure points the claim lists — returns the error to the caller
while the freshly allocated messaging object is still sitting in the claimed
slot 1: the slot is not torn down and freed. -/
theorem claimC7_counterexample :
    (dsOpenDirServiceProxy stateEmpty c7ConfigFailEnv).status = -7 ∧
    (dsOpenDirServiceProxy stateEmpty c7ConfigFailEnv).status ≠ eDSNoErr ∧
    (dsOpenDirServiceProxy stateEmpty c7ConfigFailEnv).state.gMessageTable 1 ≠
      none := by
  decide

/-- C7 (amended): `dsOpenDirServiceProxy` tears the claimed slot down (TCP
endpoint closed, messaging object deleted, table entry nil) before returning
an error only for failures of the marshalling/send/reply phase — once
`ConfigTCP` and `OpenTCPEndpoint` have succeeded.  A configuration or
connection failure returns that error with the freshly allocated messaging
object still occupying the claimed slot, leaving a half-open remote slot in
the table. -/
theorem claimC7_amended :
    (∀ (st : DSGlobals) (env : ProxyEnv), env.outDirRefNull = false →
      st.gProcessForked = false → firstFreeSlot st.gMessageTable ≠ 0 →
      env.configStatus = eDSNoErr → env.openTCPStatus = eDSNoErr →
      (dsOpenDirServiceProxy st env).status ≠ eDSNoErr →
      (dsOpenDirServiceProxy st env).state.gMessageTable
        (firstFreeSlot st.gMessageTable) = none) ∧
    (∀ (st : DSGlobals) (env : ProxyEnv), env.outDirRefNull = false →
      st.gProcessForked = false → firstFreeSlot st.gMessageTable ≠ 0 →
      env.configStatus ≠ eDSNoErr →
      (dsOpenDirServiceProxy st env).status = env.configStatus ∧
      (dsOpenDirServiceProxy st env).state.gMessageTable
        (firstFreeSlot st.gMessageTable) ≠ none) ∧
    (∀ (st : DSGlobals) (env : ProxyEnv), env.outDirRefNull = false →
      st.gProcessForked = false → firstFreeSlot st.gMessageTable ≠ 0 →
      env.configStatus = eDSNoErr → env.openTCPStatus ≠ eDSNoErr →
      (dsOpenDirServiceProxy st env).status = env.openTCPStatus ∧
      (dsOpenDirServiceProxy st env).state.gMessageTable
        (firstFreeSlot st.gMessageTable) ≠ none) := by
  refine ⟨?_, ?_, ?_⟩
  · intro st env hnull hfork hslot hcfg hopen
    simp only [dsOpenDirServiceProxy, hnull, hfork, hslot, hcfg, hopen,
      Bool.false_eq_true, if_false, ne_eq, eq_self_iff_true, not_true,
      not_false_iff, if_true]
    iterate 13 (apply proxyTearCase _ _ _ _ (by simp [setSlot]))
    intro h
    exact absurd rfl h
  · intro st env hnull hfork hslot hcfg
    constructor
    · simp [dsOpenDirServiceProxy, hnull, hfork, hslot, hcfg]
    · simp [dsOpenDirServiceProxy, hnull, hfork, hslot, hcfg, setSlot]
  · intro st env hnull hfork hslot hcfg hopen
    constructor
    · simp [dsOpenDirServiceProxy, hnull, hfork, hslot, hcfg, hopen]
    · simp [dsOpenDirServiceProxy, hnull, hfork, hslot, hcfg, hopen, setSlot]

/-- Witness for C7 (amended) at concrete inputs: a reply-phase failure frees
slot 1, while an `OpenTCPEndpoint` failure leaves slot 1 occupied. -/
theorem claimC7_amended_witness :
    (dsOpenDirServiceProxy stateEmpty c7RpcFailEnv).state.gMessageTable 1 = none ∧
    (dsOpenDirServiceProxy stateEmpty c7OpenFailEnv).status = -8 ∧
    (dsOpenDirServiceProxy stateEmpty c7OpenFailEnv).state.gMessageTable 1 ≠
      none := by
  refine ⟨?_, ?_, ?_⟩
  · exact claimC7_amended.1 stateEmpty c7RpcFailEnv rfl rfl (by decide) rfl rfl
      (by decide)
  · exact (claimC7_amended.2.2 stateEmpty c7OpenFailEnv rfl rfl (by decide) rfl
      (by decide)).1
  · exact (claimC7_amended.2.2 stateEmpty c7OpenFailEnv rfl rfl (by decide) rfl
      (by decide)).2

/-! ### Claim C4 -/

theorem firstFreeSlot_of_full (t : MsgTable)
    (h : ∀ i, 1 ≤ i → i ≤ 8 → t i ≠ none) : firstFreeSlot t = 0 := by
  have h1 := h 1 (by decide) (by decide)
  have h2 := h 2 (by decide) (by decide)
  have h3 := h 3 (by decide) (by decide)
  have h4 := h 4 (by decide) (by decide)
  have h5 := h 5 (by decide) (by decide)
  have h6 := h 6 (by decide) (by decide)
  have h7 := h 7 (by decide) (by decide)
  have h8 := h 8 (by decide) (by decide)
  simp [firstFreeSlot, h1, h2, h3, h4, h5, h6, h7, h8]

theorem firstFreeSlot_first (t : MsgTable) (j : Nat) (hj1 : 1 ≤ j) (hj8 : j ≤ 8)
    (hfree : t j = none) (hocc : ∀ i, 1 ≤ i → i < j → t i ≠ none) :
    firstFreeSlot t = j := by
  interval_cases j
  · simp [firstFreeSlot, hfree]
  · simp [firstFreeSlot, hocc 1 (by decide) (by decide), hfree]
  · simp [firstFreeSlot, hocc 1 (by decide) (by decide), hocc 2 (by decide) (by decide),
      hfree]
  · simp [firstFreeSlot, hocc 1 (by decide) (by decide), hocc 2 (by decide) (by decide),
      hocc 3 (by decide) (by decide), hfree]
  · simp [firstFreeSlot, hocc 1 (by decide) (by decide), hocc 2 (by decide) (by decide),
      hocc 3 (by decide) (by decide), hocc 4 (by decide) (by decide), hfree]
  · simp [firstFreeSlot, hocc 1 (by decide) (by decide), hocc 2 (by decide) (by decide),
      hocc 3 (by decide) (by decide), hocc 4 (by decide) (by decide),
      hocc 5 (by decide) (by decide), hfree]
  · simp [firstFreeSlot, hocc 1 (by decide) (by decide), hocc 2 (by decide) (by decide),
      hocc 3 (by decide) (by decide), hocc 4 (by decide) (by decide),
      hocc 5 (by decide) (by decide), hocc 6 (by decide) (by decide), hfree]
  · simp [firstFreeSlot, hocc 1 (by decide) (by decide), hocc 2 (by decide) (by decide),
      hocc 3 (by decide) (by decide), hocc 4 (by decide) (by decide),
      hocc 5 (by decide) (by decide), hocc 6 (by decide) (by decide),
      hocc 7 (by decide) (by decide), hfree]

/-- A remote-open environment in which every external call succeeds. -/
def ProxySuccess (env : ProxyEnv) : Prop :=
  env.outDirRefNull = false ∧ env.configStatus = eDSNoErr ∧
  env.openTCPStatus = eDSNoErr ∧ env.verifyAuthMethod = eDSNoErr ∧
  env.verifyAuthStep = eDSNoErr ∧ env.verifyAuthResp = eDSNoErr ∧
  env.addVers = eDSNoErr ∧ env.deallocVers = eDSNoErr ∧
  env.addAuthMethod = eDSNoErr ∧ env.addAuthStep = eDSNoErr ∧
  env.addAuthResp = eDSNoErr ∧ env.addContext = eDSNoErr ∧
  env.sendStatus = eDSNoErr ∧ env.replyStatus = eDSNoErr ∧
  env.getResultStatus = eDSNoErr ∧ env.resultCode = eDSNoErr ∧
  env.getDirRefStatus = eDSNoErr

theorem proxy_success_effect (st : DSGlobals) (env : ProxyEnv)
    (hfork : st.gProcessForked = false)
    (hslot : firstFreeSlot st.gMessageTable ≠ 0)
    (hsucc : ProxySuccess env) :
    (dsOpenDirServiceProxy st env).status = eDSNoErr ∧
    ((dsOpenDirServiceProxy st env).state.gMessageTable
      (firstFreeSlot st.gMessageTable)).isSome = true ∧
    (∀ i, i ≠ firstFreeSlot st.gMessageTable →
      (dsOpenDirServiceProxy st env).state.gMessageTable i = st.gMessageTable i) := by
  obtain ⟨e1, e2, e3, e4, e5, e6, e7, e8, e9, e10, e11, e12, e13, e14, e15, e16, e17⟩ :=
    hsucc
  refine ⟨?_, ?_, ?_⟩
  · simp [dsOpenDirServiceProxy, hfork, hslot, e1, e2, e3, e4, e5, e6, e7, e8, e9,
      e10, e11, e12, e13, e14, e15, e16, e17]
  · simp [dsOpenDirServiceProxy, hfork, hslot, e1, e2, e3, e4, e5, e6, e7, e8, e9,
      e10, e11, e12, e13, e14, e15, e16, e17, setSlot]
  · intro i hi
    simp [dsOpenDirServiceProxy, hfork, hslot, e1, e2, e3, e4, e5, e6, e7, e8, e9,
      e10, e11, e12, e13, e14, e15, e16, e17, setSlot, hi]

/-- A close environment in which every external call succeeds. -/
def CloseSuccess (env : CloseEnv) : Prop :=
  env.addDirRef = eDSNoErr ∧ env.addConnCount = eDSNoErr ∧
  env.sendStatus = eDSNoErr ∧ env.replyStatus = eDSNoErr ∧
  env.getResultStatus = eDSNoErr ∧ env.resultCode = eDSNoErr

theorem close_remote_effect (st : DSGlobals) (r : Nat) (env : CloseEnv)
    (hr : r ≠ 0) (hidx0 : env.getMsgIndex ≠ 0)
    (hb : ¬(env.getMsgIndex > gMaxEndpoints))
    (hnil : (st.gMessageTable env.getMsgIndex).isNone = false)
    (hsucc : CloseSuccess env) :
    (dsCloseDirService st r env).2 = eDSNoErr ∧
    (dsCloseDirService st r env).1.gMessageTable env.getMsgIndex = none ∧
    (∀ i, i ≠ env.getMsgIndex → i ≠ 0 →
      (dsCloseDirService st r env).1.gMessageTable i = st.gMessageTable i) ∧
    (dsCloseDirService st r env).1.gProcessForked = st.gProcessForked := by
  obtain ⟨e1, e2, e3, e4, e5, e6⟩ := hsucc
  have hsome : (st.gMessageTable env.getMsgIndex).isSome = true := by
    rcases h : st.gMessageTable env.getMsgIndex with _ | m
    · rw [h] at hnil; simp at hnil
    · rfl
  refine ⟨?_, ?_, ?_, ?_⟩
  · by_cases hc : st.gDSConnections = 0 <;>
      simp [dsCloseDirService, dsCloseDirServiceRPCError, dsCloseDirServiceBookkeeping,
        hr, hidx0, hb, hnil, e1, e2, e3, e4, e5, e6, hc,
        hsome, setSlot, checkToCleanUpLostTCPConnection]
  · by_cases hc : st.gDSConnections = 0 <;>
      simp [dsCloseDirService, dsCloseDirServiceRPCError, dsCloseDirServiceBookkeeping,
        hr, hidx0, hb, hnil, e1, e2, e3, e4, e5, e6, hc,
        hsome, setSlot, checkToCleanUpLostTCPConnection]
  · intro i hij hi0
    by_cases hc : st.gDSConnections = 0 <;>
      simp [dsCloseDirService, dsCloseDirServiceRPCError, dsCloseDirServiceBookkeeping,
        hr, hidx0, hb, hnil, e1, e2, e3, e4, e5, e6, hc,
        hsome, setSlot, checkToCleanUpLostTCPConnection, hij, hi0]
  · by_cases hc : st.gDSConnections = 0 <;>
      simp [dsCloseDirService, dsCloseDirServiceRPCError, dsCloseDirServiceBookkeeping,
        hr, hidx0, hb, hnil, e1, e2, e3, e4, e5, e6, hc,
        hsome, setSlot, checkToCleanUpLostTCPConnection]

/-- C4: `dsOpenDirServiceProxy` assigns a new remote session the first empty
slot of 1..8 — writing only into a previously empty slot we prove every other
slot's occupant is untouched, so no live session's slot is ever handed out
again; with all 8 remote slots occupied a further open fails with
`eDSMaxSessionsOpen` and changes nothing; and after closing the session of any
slot j of a full table the next (fully successful) open succeeds and lands in
the freed slot j. -/
theorem claimC4_slot_assignment :
    (∀ (st : DSGlobals) (env : ProxyEnv), env.outDirRefNull = false →
      st.gProcessForked = false →
      (∀ i, 1 ≤ i → i ≤ 8 → st.gMessageTable i ≠ none) →
      (dsOpenDirServiceProxy st env).status = eDSMaxSessionsOpen ∧
      (dsOpenDirServiceProxy st env).state = st) ∧
    (∀ (st : DSGlobals) (env : ProxyEnv) (j : Nat), st.gProcessForked = false →
      1 ≤ j → j ≤ 8 → st.gMessageTable j = none →
      (∀ i, 1 ≤ i → i < j → st.gMessageTable i ≠ none) → ProxySuccess env →
      (dsOpenDirServiceProxy st env).status = eDSNoErr ∧
      ((dsOpenDirServiceProxy st env).state.gMessageTable j).isSome = true ∧
      (∀ i, i ≠ j →
        (dsOpenDirServiceProxy st env).state.gMessageTable i = st.gMessageTable i)) ∧
    (∀ (st : DSGlobals) (r : Nat) (cenv : CloseEnv) (env : ProxyEnv) (j : Nat),
      st.gProcessForked = false → 1 ≤ j → j ≤ 8 →
      (∀ i, 1 ≤ i → i ≤ 8 → st.gMessageTable i ≠ none) →
      r ≠ 0 → cenv.getMsgIndex = j → CloseSuccess cenv → ProxySuccess env →
      (dsOpenDirServiceProxy (dsCloseDirService st r cenv).1 env).status = eDSNoErr ∧
      ((dsOpenDirServiceProxy (dsCloseDirService st r cenv).1 env).state.gMessageTable
        j).isSome = true) := by
  refine ⟨?_, ?_, ?_⟩
  · intro st env hnull hfork hfull
    have h0 : firstFreeSlot st.gMessageTable = 0 := firstFreeSlot_of_full _ hfull
    constructor
    · simp [dsOpenDirServiceProxy, hnull, hfork, h0]
    · simp [dsOpenDirServiceProxy, hnull, hfork, h0]
  · intro st env j hfork hj1 hj8 hfree hocc hsucc
    have hj : firstFreeSlot st.gMessageTable = j :=
      firstFreeSlot_first _ j hj1 hj8 hfree hocc
    have hslot : firstFreeSlot st.gMessageTable ≠ 0 := by
      rw [hj]; omega
    have h := proxy_success_effect st env hfork hslot hsucc
    rw [hj] at h
    exact h
  · intro st r cenv env j hfork hj1 hj8 hfull hr hcj hclose hproxy
    have hidx0 : cenv.getMsgIndex ≠ 0 := by rw [hcj]; omega
    have hbnd : ¬(cenv.getMsgIndex > gMaxEndpoints) := by
      rw [hcj]; simp [gMaxEndpoints, kDSFWMaxRemoteConnections]; omega
    have hnil : (st.gMessageTable cenv.getMsgIndex).isNone = false := by
      rw [hcj]
      rcases h : st.gMessageTable j with _ | m
      · exact absurd h (hfull j hj1 hj8)
      · rfl
    obtain ⟨_, hjnone, hpres, hforkp⟩ := close_remote_effect st r cenv hr hidx0 hbnd
      hnil hclose
    rw [hcj] at hjnone hpres
    set st2 := (dsCloseDirService st r cenv).1 with hst2
    have hfork2 : st2.gProcessForked = false := by rw [hforkp, hfork]
    have hocc2 : ∀ i, 1 ≤ i → i < j → st2.gMessageTable i ≠ none := by
      intro i hi1 hij
      rw [hpres i (by omega) (by omega)]
      exact hfull i hi1 (by omega)
    have hj2 : firstFreeSlot st2.gMessageTable = j :=
      firstFreeSlot_first _ j hj1 hj8 hjnone hocc2
    have hslot2 : firstFreeSlot st2.gMessageTable ≠ 0 := by rw [hj2]; omega
    have h := proxy_success_effect st2 env hfork2 hslot2 hproxy
    rw [hj2] at h
    exact ⟨h.1, h.2.1⟩

/-- Witness for C4 at concrete inputs: on the full table `stateFull` an open
fails with `eDSMaxSessionsOpen`; after closing the slot-3 session, the next
open succeeds and occupies slot 3 again. -/
theorem claimC4_witness :
    (dsOpenDirServiceProxy stateFull c7ConfigFailEnv).status = eDSMaxSessionsOpen ∧
    (dsOpenDirServiceProxy
        (dsCloseDirService stateFull 7
          { getMsgIndex := 3, addDirRef := 0, addConnCount := 0, sendStatus := 0,
            replyStatus := 0, getResultStatus := 0, resultCode := 0 }).1
        { c7ConfigFailEnv with configStatus := 0 }).status = eDSNoErr ∧
    ((dsOpenDirServiceProxy
        (dsCloseDirService stateFull 7
          { getMsgIndex := 3, addDirRef := 0, addConnCount := 0, sendStatus := 0,
            replyStatus := 0, getResultStatus := 0, resultCode := 0 }).1
        { c7ConfigFailEnv with configStatus := 0 }).state.gMessageTable 3).isSome =
      true := by
  refine ⟨?_, ?_, ?_⟩
  · exact (claimC4_slot_assignment.1 stateFull c7ConfigFailEnv rfl rfl
      (by intro i h1 h8; interval_cases i <;> decide)).1
  · exact (claimC4_slot_assignment.2.2 stateFull 7 _ _ 3 rfl (by decide) (by decide)
      (by intro i h1 h8; interval_cases i <;> decide) (by decide) rfl
      (by refine ⟨rfl, rfl, rfl, rfl, rfl, rfl⟩)
      (by refine ⟨rfl, rfl, rfl, rfl, rfl, rfl, rfl, rfl, rfl, rfl, rfl, rfl, rfl,
        rfl, rfl, rfl, rfl⟩)).1
  · exact (claimC4_slot_assignment.2.2 stateFull 7 _ _ 3 rfl (by decide) (by decide)
      (by intro i h1 h8; interval_cases i <;> decide) (by decide) rfl
      (by refine ⟨rfl, rfl, rfl, rfl, rfl, rfl⟩)
      (by refine ⟨rfl, rfl, rfl, rfl, rfl, rfl, rfl, rfl, rfl, rfl, rfl, rfl, rfl,
        rfl, rfl, rfl, rfl⟩)).2

/-! ### Claim C5 -/

/-- The mutual-exclusion property of the two slot-0 in-use flags: they are
never both set. -/
def FlagsOK (st : DSGlobals) : Prop :=
  st.gNormalDaemonInUse = false ∨ st.gLocalDaemonInUse = false

theorem cleanup_flagsOK (st : DSGlobals) (s : Int) (idx : Nat) (h : FlagsOK st) :
    FlagsOK (checkToCleanUpLostTCPConnection st s idx).1 := by
  obtain ⟨hn, hl⟩ := cleanup_flags st s idx
  rcases h with hx | hx
  · exact Or.inl (by rw [hn, hx])
  · exact Or.inr (by rw [hl, hx])

theorem opCase (P : DSGlobals → Prop) (c : Prop) [Decidable c] (a b : OpResult)
    (ha : P a.state) (hb : P b.state) : P (if c then a else b).state := by
  split_ifs with hc
  · exact ha
  · exact hb

theorem openService_flagsOK (st : DSGlobals) (env : OpenServiceEnv)
    (h : FlagsOK st) : FlagsOK (dsOpenDirService st env).state := by
  by_cases h1 : env.outDirRefNull = true
  · simp only [dsOpenDirService, if_pos h1]; exact h
  · by_cases h2 : st.gLocalDaemonInUse = true
    · simp only [dsOpenDirService, if_neg h1, if_pos h2]; exact h
    · by_cases h3 : env.daemonStatus ≠ eDSNoErr
      · simp only [dsOpenDirService, if_neg h1, if_neg h2, if_pos h3]; exact h
      · have h2f : st.gLocalDaemonInUse = false := by
          cases hx : st.gLocalDaemonInUse
          · rfl
          · exact absurd hx h2
        by_cases hf : st.gProcessForked = true
        · rcases hm : (resetAllSessions st).gMessageTable 0 with _ | m <;>
          · simp only [dsOpenDirService, if_neg h1, if_neg h2, if_neg h3, if_pos hf, hm]
            iterate 5 apply opCase _ _ _ _ (Or.inr rfl)
            exact Or.inr rfl
        · rcases hm : st.gMessageTable 0 with _ | m <;>
          · simp only [dsOpenDirService, if_neg h1, if_neg h2, if_neg h3, if_neg hf, hm]
            iterate 5 apply opCase _ _ _ _ (Or.inr h2f)
            exact Or.inr h2f

theorem postFork_flagsOK (st1 : DSGlobals) (env : OpenLocalEnv) (h : FlagsOK st1) :
    FlagsOK (dsOpenDirServiceLocalPostFork st1 env).state := by
  by_cases hl : (!env.lstatOk) = true
  · simp only [dsOpenDirServiceLocalPostFork, if_pos hl]; exact h
  · by_cases hred : (env.daemonRunning && env.defaultStoreStatOk &&
        env.samePathAsDaemonStore) = true
    · simp only [dsOpenDirServiceLocalPostFork, if_neg hl, if_pos hred]
      exact openService_flagsOK st1 env.redirectEnv h
    · by_cases hn : st1.gNormalDaemonInUse = true
      · simp only [dsOpenDirServiceLocalPostFork, if_neg hl, if_neg hred, if_pos hn]
        exact h
      · have hnf : st1.gNormalDaemonInUse = false := by
          cases hx : st1.gNormalDaemonInUse
          · rfl
          · exact absurd hx hn
        by_cases hd : env.localDaemonStatus ≠ eDSNoErr
        · simp only [dsOpenDirServiceLocalPostFork, if_neg hl, if_neg hred, if_neg hn,
            if_pos hd]
          exact h
        · rcases hm : st1.gMessageTable 0 with _ | m <;>
          · simp only [dsOpenDirServiceLocalPostFork, if_neg hl, if_neg hred, if_neg hn,
              if_neg hd, hm]
            iterate 7 apply opCase _ _ _ _ (Or.inl hnf)
            exact Or.inl hnf

theorem openLocal_flagsOK (st : DSGlobals) (p : Option (List Char))
    (env : OpenLocalEnv) (h : FlagsOK st) :
    FlagsOK (dsOpenDirServiceLocal st p env).state := by
  by_cases h1 : env.outDirRefNull = true
  · simp only [dsOpenDirServiceLocal, if_pos h1]; exact h
  · rcases hp : dsLocalNormalizePath p with e | v
    · simp only [dsOpenDirServiceLocal, if_neg h1, hp]; exact h
    · by_cases hf : st.gProcessForked = true
      · simp only [dsOpenDirServiceLocal, if_neg h1, hp, if_pos hf]
        exact postFork_flagsOK _ env (Or.inl rfl)
      · simp only [dsOpenDirServiceLocal, if_neg h1, hp, if_neg hf]
        exact postFork_flagsOK _ env h

theorem openProxy_flagsOK (st : DSGlobals) (env : ProxyEnv) (h : FlagsOK st) :
    FlagsOK (dsOpenDirServiceProxy st env).state := by
  by_cases h1 : env.outDirRefNull = true
  · simp only [dsOpenDirServiceProxy, if_pos h1]; exact h
  · by_cases hf : st.gProcessForked = true
    · simp only [dsOpenDirServiceProxy, if_neg h1, if_pos hf]
      by_cases hz : firstFreeSlot (resetAllSessions st).gMessageTable = 0
      · rw [if_pos hz]; exact Or.inl rfl
      · rw [if_neg hz]
        by_cases hcfg : env.configStatus ≠ eDSNoErr
        · rw [if_pos hcfg]; exact Or.inl rfl
        · rw [if_neg hcfg]
          iterate 14 apply opCase _ _ _ _ (Or.inl rfl)
          exact Or.inl rfl
    · simp only [dsOpenDirServiceProxy, if_neg h1, if_neg hf]
      by_cases hz : firstFreeSlot st.gMessageTable = 0
      · rw [if_pos hz]; exact h
      · rw [if_neg hz]
        by_cases hcfg : env.configStatus ≠ eDSNoErr
        · rw [if_pos hcfg]; exact h
        · rw [if_neg hcfg]
          iterate 14 apply opCase _ _ _ _ h
          exact h

theorem bookkeeping_flagsOK (st : DSGlobals) (idx : Nat) (h : FlagsOK st) :
    FlagsOK (dsCloseDirServiceBookkeeping st idx) := by
  simp only [dsCloseDirServiceBookkeeping]
  split_ifs <;> first | exact h | exact Or.inl rfl

theorem close_flagsOK (st : DSGlobals) (r : Nat) (env : CloseEnv) (h : FlagsOK st) :
    FlagsOK (dsCloseDirService st r env).1 := by
  unfold dsCloseDirService
  by_cases h1 : r = 0
  · rw [if_pos h1]; exact cleanup_flagsOK _ _ _ h
  · rw [if_neg h1]
    rcases hE : dsCloseDirServiceRPCError st env with _ | e
    · simp only [hE]
      exact cleanup_flagsOK _ _ _ (bookkeeping_flagsOK st env.getMsgIndex h)
    · simp only [hE]
      exact cleanup_flagsOK _ _ _ h

theorem verify_flagsOK (st : DSGlobals) (r : Nat) (env : VerifyEnv)
    (h : FlagsOK st) : FlagsOK (dsVerifyDirRefNum st r env).state := by
  simp only [dsVerifyDirRefNum]
  split_ifs <;> first | exact h | exact cleanup_flagsOK _ _ _ h

/-- Every reachable state keeps the two slot-0 in-use flags mutually
exclusive. -/
theorem reachable_flagsOK {st : DSGlobals} (h : Reachable st) : FlagsOK st := by
  induction h with
  | init => exact Or.inl rfl
  | step _ hs ih =>
    cases hs with
    | openService env => exact openService_flagsOK _ env ih
    | openLocal p env => exact openLocal_flagsOK _ p env ih
    | openProxy env => exact openProxy_flagsOK _ env ih
    | close r env => exact close_flagsOK _ r env ih
    | verify r env => exact verify_flagsOK _ r env ih
    | getRecordList r tok env => exact cleanup_flagsOK _ _ _ ih
    | getDirNodeList r tok env => exact cleanup_flagsOK _ _ _ ih
    | findDirNodes r tok env => exact cleanup_flagsOK _ _ _ ih
    | attrValueSearch r tok env => exact cleanup_flagsOK _ _ _ ih
    | cleanup s idx => exact cleanup_flagsOK _ _ _ ih

/-- Every normalization run succeeds (its only throw site is the dead
over-length guard). -/
theorem dsLocalNormalizePath_ok (p : Option (List Char)) :
    ∃ v, dsLocalNormalizePath p = .ok v := by
  simp only [dsLocalNormalizePath]
  split_ifs <;> exact ⟨_, rfl⟩

/-- C5: `dsOpenDirService` fails with `eDSLocalDSDaemonInUse` leaving the
whole state (slot 0 included) unchanged when the local-only-daemon flag is
set; `dsOpenDirServiceLocal` (on a valid, non-redirected path in a settled
process) fails with `eDSNormalDSDaemonInUse` leaving the state unchanged when
the normal-daemon flag is set; and in every reachable state the two flags are
never both true. -/
theorem claimC5_flag_exclusivity :
    (∀ (st : DSGlobals) (env : OpenServiceEnv), env.outDirRefNull = false →
      st.gLocalDaemonInUse = true →
      dsOpenDirService st env = ⟨st, eDSLocalDSDaemonInUse, none⟩) ∧
    (∀ (st : DSGlobals) (p : Option (List Char)) (env : OpenLocalEnv),
      env.outDirRefNull = false → st.gProcessForked = false →
      env.lstatOk = true →
      (env.daemonRunning && env.defaultStoreStatOk && env.samePathAsDaemonStore) = false →
      st.gNormalDaemonInUse = true →
      dsOpenDirServiceLocal st p env = ⟨st, eDSNormalDSDaemonInUse, none⟩) ∧
    (∀ st : DSGlobals, Reachable st →
      ¬(st.gNormalDaemonInUse = true ∧ st.gLocalDaemonInUse = true)) := by
  refine ⟨?_, ?_, ?_⟩
  · intro st env hnull hloc
    simp [dsOpenDirService, hnull, hloc]
  · intro st p env hnull hfork hlstat hred hnorm
    obtain ⟨v, hv⟩ := dsLocalNormalizePath_ok p
    simp [dsOpenDirServiceLocal, dsOpenDirServiceLocalPostFork, hnull, hfork, hv,
      hlstat, hred, hnorm]
  · intro st hst hboth
    rcases reachable_flagsOK hst with hx | hx
    · rw [hboth.1] at hx; exact absurd hx (by decide)
    · rw [hboth.2] at hx; exact absurd hx (by decide)

/-- A state in which a local-only-daemon session holds slot 0. -/
def stateLocalBusy : DSGlobals :=
  { gMessageTable := setSlot (fun _ => none) 0
      (some { isMach := true, portOpen := true, localDaemon := true, serverVersion := 0 })
    gDSConnections := 1
    gNormalDaemonInUse := false
    gLocalDaemonInUse := true
    gProcessForked := false }

/-- A state in which a normal-daemon session holds slot 0. -/
def stateNormalBusy : DSGlobals :=
  { gMessageTable := setSlot (fun _ => none) 0 (some sampleMach)
    gDSConnections := 1
    gNormalDaemonInUse := true
    gLocalDaemonInUse := false
    gProcessForked := false }

/-- A fully successful `dsOpenDirService` environment. -/
def okOpenEnv : OpenServiceEnv :=
  { outDirRefNull := false, daemonStatus := 0, openCommPortStatus := 0,
    sendStatus := 0, replyStatus := 0, getResultStatus := 0, resultCode := 0,
    getDirRefStatus := 0, dirRefValue := 9 }

/-- A `dsOpenDirServiceLocal` environment with a valid, non-redirected path
and every external call succeeding. -/
def okLocalEnv : OpenLocalEnv :=
  { outDirRefNull := false, lstatOk := true, daemonRunning := false,
    defaultStoreStatOk := false, samePathAsDaemonStore := false,
    redirectEnv := okOpenEnv, localDaemonStatus := 0, openCommPortStatus := 0,
    addFilePath := 0, deallocStatus := 0, sendStatus := 0, replyStatus := 0,
    getResultStatus := 0, resultCode := 0, getDirRefStatus := 0, dirRefValue := 9 }

/-- Witness for C5 at concrete inputs: both refusals at busy states, and the
invariant instantiated at the initial state. -/
theorem claimC5_witness :
    dsOpenDirService stateLocalBusy okOpenEnv =
      ⟨stateLocalBusy, eDSLocalDSDaemonInUse, none⟩ ∧
    dsOpenDirServiceLocal stateNormalBusy none okLocalEnv =
      ⟨stateNormalBusy, eDSNormalDSDaemonInUse, none⟩ ∧
    ¬(initialGlobals.gNormalDaemonInUse = true ∧
      initialGlobals.gLocalDaemonInUse = true) := by
  refine ⟨?_, ?_, ?_⟩
  · exact claimC5_flag_exclusivity.1 stateLocalBusy _ rfl rfl
  · exact claimC5_flag_exclusivity.2.1 stateNormalBusy none _ rfl rfl rfl rfl rfl
  · exact claimC5_flag_exclusivity.2.2 initialGlobals Reachable.init

/-! ### Claim C6 -/

theorem cleanup_conns (st : DSGlobals) (s : Int) (idx : Nat) :
    (checkToCleanUpLostTCPConnection st s idx).1.gDSConnections =
      st.gDSConnections := by
  unfold checkToCleanUpLostTCPConnection
  split_ifs <;> first
    | rfl
    | (rcases h : st.gMessageTable idx with _ | m <;> simp [h])

/-- Environment of a `dsOpenDirService` call that passes the availability
checks and opens the comm port, but whose open RPC send then fails. -/
def c6FailEnv : OpenServiceEnv :=
  { okOpenEnv with sendStatus := -2000 }

/-- Counterexample to C6 as stated: a local-daemon open whose RPC fails — the
caller gets an error and holds no session — still leaves `gDSConnections`
incremented from 0 to 1, so the count does not equal the number of un-closed
local-daemon sessions and the increment is not tied to a successful open. -/
theorem claimC6_counterexample :
    (dsOpenDirService stateEmpty c6FailEnv).status = -2000 ∧
    (dsOpenDirService stateEmpty c6FailEnv).status ≠ eDSNoErr ∧
    stateEmpty.gDSConnections = 0 ∧
    (dsOpenDirService stateEmpty c6FailEnv).state.gDSConnections = 1 := by
  decide

/-- C6 (amended): `gDSConnections` is incremented by every local-daemon open
attempt that passes the in-use and daemon-availability checks — even when the
subsequent open RPC fails — and decremented once per successful slot-0 close
while positive.  Under fully successful environments the claimed refcount
discipline holds: a fresh successful open increments the count and opens the
shared channel; a successful slot-0 close with two or more connections
decrements the count and leaves the channel and both flags untouched; closing
the last one drops the count to zero, closes the comm port and clears both
in-use flags; and a close at count zero never wraps the count below zero. -/
theorem claimC6_amended :
    (∀ (st : DSGlobals) (env : OpenServiceEnv), env.outDirRefNull = false →
      st.gLocalDaemonInUse = false → st.gProcessForked = false →
      st.gMessageTable 0 = none → env.daemonStatus = eDSNoErr →
      env.openCommPortStatus = eDSNoErr → env.sendStatus = eDSNoErr →
      env.replyStatus = eDSNoErr → env.getResultStatus = eDSNoErr →
      env.resultCode = eDSNoErr → env.getDirRefStatus = eDSNoErr →
      (dsOpenDirService st env).status = eDSNoErr ∧
      (dsOpenDirService st env).state.gDSConnections = st.gDSConnections + 1 ∧
      (dsOpenDirService st env).state.gMessageTable 0 =
        some { isMach := true, portOpen := true, localDaemon := false,
               serverVersion := 0 }) ∧
    (∀ (st : DSGlobals) (env : OpenServiceEnv), env.outDirRefNull = false →
      st.gLocalDaemonInUse = false → st.gProcessForked = false →
      env.daemonStatus = eDSNoErr →
      (dsOpenDirService st env).state.gDSConnections = st.gDSConnections + 1) ∧
    (∀ (st : DSGlobals) (r : Nat) (env : CloseEnv), r ≠ 0 → env.getMsgIndex = 0 →
      (st.gMessageTable 0).isNone = false → CloseSuccess env →
      2 ≤ st.gDSConnections →
      (dsCloseDirService st r env).2 = eDSNoErr ∧
      (dsCloseDirService st r env).1.gDSConnections = st.gDSConnections - 1 ∧
      (dsCloseDirService st r env).1.gMessageTable 0 = st.gMessageTable 0 ∧
      (dsCloseDirService st r env).1.gNormalDaemonInUse = st.gNormalDaemonInUse ∧
      (dsCloseDirService st r env).1.gLocalDaemonInUse = st.gLocalDaemonInUse) ∧
    (∀ (st : DSGlobals) (r : Nat) (env : CloseEnv), r ≠ 0 → env.getMsgIndex = 0 →
      (st.gMessageTable 0).isNone = false → CloseSuccess env →
      st.gDSConnections = 1 →
      (dsCloseDirService st r env).2 = eDSNoErr ∧
      (dsCloseDirService st r env).1.gDSConnections = 0 ∧
      (dsCloseDirService st r env).1.gMessageTable 0 =
        (st.gMessageTable 0).map (fun m => { m with portOpen := false }) ∧
      (dsCloseDirService st r env).1.gNormalDaemonInUse = false ∧
      (dsCloseDirService st r env).1.gLocalDaemonInUse = false) ∧
    (∀ (st : DSGlobals) (r : Nat) (env : CloseEnv), st.gDSConnections = 0 →
      (dsCloseDirService st r env).1.gDSConnections = 0) := by
  refine ⟨?_, ?_, ?_, ?_, ?_⟩
  · intro st env hnull hloc hfork hm hdaemon hopen hsend hreply hgr hres hgdr
    refine ⟨?_, ?_, ?_⟩ <;>
      simp [dsOpenDirService, hnull, hloc, hfork, hm, hdaemon, hopen, hsend,
        hreply, hgr, hres, hgdr, setSlot]
  · intro st env hnull hloc hfork hdaemon
    have hn1 : ¬(env.outDirRefNull = true) := by simp [hnull]
    have hn2 : ¬(st.gLocalDaemonInUse = true) := by simp [hloc]
    have hn3 : ¬(env.daemonStatus ≠ eDSNoErr) := by simp [hdaemon]
    have hn4 : ¬(st.gProcessForked = true) := by simp [hfork]
    rcases hm : st.gMessageTable 0 with _ | m <;>
    · simp only [dsOpenDirService, if_neg hn1, if_neg hn2, if_neg hn3, if_neg hn4, hm]
      iterate 5 apply opCase (fun s => s.gDSConnections = st.gDSConnections + 1) _ _ _ rfl
      rfl
  · intro st r env hr hidx hnil hsucc h2
    obtain ⟨e1, e2, e3, e4, e5, e6⟩ := hsucc
    have hpos : 0 < st.gDSConnections := by omega
    have hne0 : ¬(st.gDSConnections - 1 = 0) := by omega
    refine ⟨?_, ?_, ?_, ?_, ?_⟩ <;>
      simp [dsCloseDirService, dsCloseDirServiceRPCError, dsCloseDirServiceBookkeeping,
        checkToCleanUpLostTCPConnection, hr, hidx, hnil, e1, e2, e3, e4, e5, e6,
        hpos, hne0]
  · intro st r env hr hidx hnil hsucc h1
    obtain ⟨e1, e2, e3, e4, e5, e6⟩ := hsucc
    refine ⟨?_, ?_, ?_, ?_, ?_⟩ <;>
      simp [dsCloseDirService, dsCloseDirServiceRPCError, dsCloseDirServiceBookkeeping,
        checkToCleanUpLostTCPConnection, hr, hidx, hnil, e1, e2, e3, e4, e5, e6,
        h1, setSlot]
  · intro st r env h0
    unfold dsCloseDirService
    by_cases h1 : r = 0
    · rw [if_pos h1, cleanup_conns]; exact h0
    · rw [if_neg h1]
      rcases hE : dsCloseDirServiceRPCError st env with _ | e
      · simp only []
        rw [cleanup_conns]
        simp [dsCloseDirServiceBookkeeping, h0]
        split_ifs <;> rfl
      · simp only []
        rw [cleanup_conns]
        exact h0

/-- Witness for C6 (amended) at concrete inputs: a fresh open on the empty
settled state yields count 1 with the channel open; a successful slot-0 close
at count 2 yields count 1 with the channel still open; at count 1 it closes
the channel and clears the flags; at count 0 the count stays 0. -/
theorem claimC6_amended_witness :
    (dsOpenDirService stateEmpty okOpenEnv).status = eDSNoErr ∧
    (dsOpenDirService stateEmpty okOpenEnv).state.gDSConnections = 1 ∧
    (dsCloseDirService { stateNormalBusy with gDSConnections := 2 } 7
        { getMsgIndex := 0, addDirRef := 0, addConnCount := 0, sendStatus := 0,
          replyStatus := 0, getResultStatus := 0, resultCode := 0 }).1.gDSConnections =
      1 ∧
    (dsCloseDirService stateNormalBusy 7
        { getMsgIndex := 0, addDirRef := 0, addConnCount := 0, sendStatus := 0,
          replyStatus := 0, getResultStatus := 0, resultCode := 0 }).1.gLocalDaemonInUse =
      false ∧
    (dsCloseDirService stateEmpty 7
        { getMsgIndex := 0, addDirRef := 0, addConnCount := 0, sendStatus := 0,
          replyStatus := 0, getResultStatus := 0, resultCode := 0 }).1.gDSConnections =
      0 := by
  refine ⟨?_, ?_, ?_, ?_, ?_⟩
  · exact (claimC6_amended.1 stateEmpty okOpenEnv rfl rfl rfl rfl rfl rfl rfl rfl
      rfl rfl rfl).1
  · exact (claimC6_amended.1 stateEmpty okOpenEnv rfl rfl rfl rfl rfl rfl rfl rfl
      rfl rfl rfl).2.1
  · exact (claimC6_amended.2.2.1 { stateNormalBusy with gDSConnections := 2 } 7 _
      (by decide) rfl (by decide) ⟨rfl, rfl, rfl, rfl, rfl, rfl⟩ (by decide)).2.1
  · exact (claimC6_amended.2.2.2.1 stateNormalBusy 7 _ (by decide) rfl (by decide)
      ⟨rfl, rfl, rfl, rfl, rfl, rfl⟩ rfl).2.2.2.2
  · exact claimC6_amended.2.2.2.2 stateEmpty 7 _ rfl

end DirServices
